import Mathlib

/-!
# Hedgie runs v8.5: capture gate, night statistics, scheduler and persistence

A shallow embedding of `src/hedgie_runs_v8_5.cpp` (an Arduino sketch for an
AVR board, see `#include <avr/wdt.h>`).

Conventions of the embedding

* The global variables of the sketch are the fields of `State`; every C
  function that reads or writes globals becomes a function on `State`.
* Machine integers are natural numbers; an operation that can wrap is written
  with an explicit modulus (`unsigned long` and `uint32_t` are 32 bit on AVR,
  `uint16_t` is 16 bit, `byte`/`uint8_t` is 8 bit).
* The EEPROM is a map from addresses to cells; `EEPROM.write` stores a byte,
  `EEPROM.read` returns a byte.
* Everything the sketch obtains from its surroundings during one call of
  `setup` or `loop` (clock readings, the analog sensor reading, the buttons,
  the results of the network calls) is a field of `SetupInput` / `LoopInput`.
* The locals `newHour` and `newMinute` of `loop` are declared without an
  initialiser and are assigned only when `isValidHour` holds; the value they
  hold otherwise is indeterminate and is therefore an input of the cycle
  (`newHourResidue`, `newMinuteResidue`).
* LCD output, LED pins, delays and the watchdog counter `wdtCount` (shared
  with the interrupt routine) carry no information used by the core and are
  not part of `State`.  The calls of the Ethernet library return; how often
  the wait loop of `sendDataToSparkFun` finds the connection still open is an
  input of the cycle (`sparkFunPolls`).
-/

namespace Hedgie

/-! ## Types of the sketch -/

/-- Capture state of the statistics gate, `STATISTICS_CAPTURE_STATE_t`. -/
inductive STATISTICS_CAPTURE_STATE_t
  | STARTUP_TESTING_DISCARD_HEDGIE_STATISTICS
  | CAPTURE_HEDGIE_STATISTICS
  deriving DecidableEq, Repr

/-- Debounce state of the wheel sensor, `WHEEL_STATE_t`. -/
inductive WHEEL_STATE_t
  | DETERMINE_MIRROR_LOCATION
  | WAITING_FOR_MIRROR
  | WAITING_FOR_WHITE
  deriving DecidableEq, Repr

open STATISTICS_CAPTURE_STATE_t WHEEL_STATE_t

/-- The `DateTime` class of RTClib, which the sketch includes but does not
define: six `uint8_t` members in this order (year offset from 2000, month,
day, hour, minute, second). -/
structure DateTime where
  yOff : Nat
  m : Nat
  d : Nat
  hh : Nat
  mm : Nat
  ss : Nat
  deriving DecidableEq, Repr

/-- Every member of a `DateTime` fits its `uint8_t`. -/
def DateTime.wf (t : DateTime) : Prop :=
  t.yOff < 256 ∧ t.m < 256 ∧ t.d < 256 ∧ t.hh < 256 ∧ t.mm < 256 ∧ t.ss < 256

instance (t : DateTime) : Decidable t.wf := by
  unfold DateTime.wf; infer_instance

/-- The accessor `DateTime::hour()`. -/
def DateTime.hour (t : DateTime) : Nat := t.hh

/-- The accessor `DateTime::minute()`. -/
def DateTime.minute (t : DateTime) : Nat := t.mm

/-- Byte `i` of the memory image of a `DateTime` (`sizeof(DateTime) = 6`). -/
def DateTime.byteAt (t : DateTime) (i : Nat) : Nat :=
  match i with
  | 0 => t.yOff
  | 1 => t.m
  | 2 => t.d
  | 3 => t.hh
  | 4 => t.mm
  | _ => t.ss

/-- The `DateTime` whose memory image is `img`. -/
def DateTime.ofImage (img : Nat → Nat) : DateTime :=
  { yOff := img 0, m := img 1, d := img 2, hh := img 3, mm := img 4, ss := img 5 }

/-- The record `HedgieNightStats_t`. -/
structure HedgieNightStats_t where
  totalDistanceInCm : Nat
  dateTimeOfFirstRotationInDateTime : DateTime
  dateTimeOfLastRotationInDateTime : DateTime
  deriving DecidableEq, Repr

/-- The distance fits its `unsigned long` and both times are well formed. -/
def HedgieNightStats_t.wf (n : HedgieNightStats_t) : Prop :=
  n.totalDistanceInCm < 4294967296 ∧ n.dateTimeOfFirstRotationInDateTime.wf ∧
    n.dateTimeOfLastRotationInDateTime.wf

instance (n : HedgieNightStats_t) : Decidable n.wf := by
  unfold HedgieNightStats_t.wf; infer_instance

/-- Byte `i` of the memory image of the record on AVR: the distance in four
little-endian bytes, then the two `DateTime` members, without padding. -/
def HedgieNightStats_t.byteAt (n : HedgieNightStats_t) (i : Nat) : Nat :=
  if i < 4 then n.totalDistanceInCm / 256 ^ i % 256
  else if i < 10 then n.dateTimeOfFirstRotationInDateTime.byteAt (i - 4)
  else n.dateTimeOfLastRotationInDateTime.byteAt (i - 10)

/-- The record whose memory image is `img`. -/
def HedgieNightStats_t.ofImage (img : Nat → Nat) : HedgieNightStats_t :=
  { totalDistanceInCm := img 0 + 256 * img 1 + 65536 * img 2 + 16777216 * img 3
    dateTimeOfFirstRotationInDateTime := DateTime.ofImage (fun i => img (4 + i))
    dateTimeOfLastRotationInDateTime := DateTime.ofImage (fun i => img (10 + i)) }

/-- The value of `sizeof(DateTime)`. -/
def sizeofDateTime : Nat := 6

/-- The value of `sizeof(HedgieNightStats_t)`. -/
def sizeofNightStats : Nat := 16

/-! ## Constants of the sketch -/

def WHEEL_CIRCUMFERENCE_IN_CM : Nat := 85
def STARTUP_COUNT_THRESHOLD : Nat := 10
def EEPROMaddrForDebugLog : Nat := 100
def EEPROMaddrForResetLog : Nat := 200
def EEPROMaddrForNightStats : Nat := 800

def DEBUG_START_MARKER : Nat := 0
def ETHERNET_DHCP_OK : Nat := 1
def ETHERNET_DHCP_FAILED : Nat := 2
def ETHERNET_CONNECT_TO_THINGSPEAK_OK_1 : Nat := 3
def ETHERNET_CONNECT_TO_THINGSPEAK_FAILED_1 : Nat := 4
def ETHERNET_CONNECT_TO_THINGSPEAK_OK_2 : Nat := 5
def ETHERNET_CONNECT_TO_THINGSPEAK_FAILED_2 : Nat := 6
def ETHERNET_CONNECT_TO_THINGSPEAK_3 : Nat := 7
def ETHERNET_CONNECT_TO_THINGSPEAK_4 : Nat := 8
def ETHERNET_CONNECT_TO_THINGSPEAK_5 : Nat := 9
def ETHERNET_CONNECT_TO_THINGSPEAK_6 : Nat := 10
def ETHERNET_NTP_1 : Nat := 11
def ETHERNET_NTP_2 : Nat := 12
def ETHERNET_NTP_3 : Nat := 13
def ETHERNET_NTP_4 : Nat := 14
def ETHERNET_NTP_5 : Nat := 15
def ETHERNET_NTP_6 : Nat := 16
def ETHERNET_NTP_7 : Nat := 17
def ETHERNET_NTP_8 : Nat := 18
def ETHERNET_NTP_9 : Nat := 19
def ETHERNET_NTP_10 : Nat := 20
def ETHERNET_NTP_11 : Nat := 21
def ETHERNET_NTP_12 : Nat := 22
def NUMBER_OF_DEBUG_MESSAGES : Nat := 23

/-! ## The durable store -/

/-- Contents of the EEPROM, by address. -/
abbrev EEPROM := Nat → Nat

/-- The call `EEPROM.read(a)`: the byte in cell `a`. -/
def EEPROM.read (e : EEPROM) (a : Nat) : Nat := e a % 256

/-- The call `EEPROM.write(a, v)`: cell `a` becomes the byte `v`. -/
def EEPROM.write (e : EEPROM) (a v : Nat) : EEPROM :=
  fun x => if x = a then v % 256 else e x

/-- The loop `for (i=0; i<n; i++) EEPROM.write(addr+i, img[i]);`. -/
def writeBlock (e : EEPROM) (addr n : Nat) (img : Nat → Nat) : EEPROM :=
  (List.range n).foldl (fun acc i => EEPROM.write acc (addr + i) (img i)) e

/-- The assignment `img[i] = v` on a memory image. -/
def pokeByte (img : Nat → Nat) (i v : Nat) : Nat → Nat :=
  fun k => if k = i then v else img k

/-- The loop `for (i=0; i<n; i++) img[i] = EEPROM.read(addr+i);`. -/
def readBlock (e : EEPROM) (addr n : Nat) (img : Nat → Nat) : Nat → Nat :=
  (List.range n).foldl (fun acc i => pokeByte acc i (EEPROM.read e (addr + i))) img

/-! ## Reports handed to the reporting collaborators -/

/-- Something the core hands to a reporting collaborator: a `send` call of an
Adafruit feed (`temperature`, `uptime`, `distance`), or a request written to
an open connection (`sparkFun`, `tweet`), with the data the core supplies. -/
inductive Report
  | temperature
  | uptime (minutes : Nat)
  | distance (metres : Nat)
  | sparkFun (t : DateTime) (distanceInCm : Nat)
  | tweet (stats : HedgieNightStats_t)
  deriving DecidableEq, Repr

/-! ## Global state -/

/-- The global variables of the sketch that the core reads or writes, the
EEPROM, and the reports sent so far (oldest first). -/
structure State where
  nightStats : HedgieNightStats_t
  distanceRunIntervalInCm : Nat
  whiteSampleCount : Int
  startupTestingCount : Nat
  uptimeInMinutes : Nat
  statisticsCaptureState : STATISTICS_CAPTURE_STATE_t
  wheelState : WHEEL_STATE_t
  prevHour : Nat
  prevMinute : Nat
  eeprom : EEPROM
  reports : List Report

/-- What `setup` obtains from its surroundings. -/
structure SetupInput where
  /-- The reading `dateNow = rtc.now()`. -/
  dateNow : DateTime
  /-- First `rtc.now()` of `initNightStats`. -/
  rtcFirst : DateTime
  /-- Second `rtc.now()` of `initNightStats`. -/
  rtcLast : DateTime
  /-- Whether `Ethernet.begin(mac)` returned nonzero. -/
  dhcpOk : Bool

/-- What one call of `loop` obtains from its surroundings. -/
structure LoopInput where
  /-- The reading `dateNow = rtc.now()` at the top of `loop`. -/
  dateNow : DateTime
  /-- Indeterminate value of the local `newHour` before any assignment. -/
  newHourResidue : Bool
  /-- Indeterminate value of the local `newMinute` before any assignment. -/
  newMinuteResidue : Bool
  /-- The value of `analogRead(0)` in the one `isMirror()` call of the cycle. -/
  analog : Nat
  /-- The `rtc.now()` read inside `detectMirror`. -/
  rtcRotation : DateTime
  /-- First `rtc.now()` of `initNightStats`. -/
  rtcFirst : DateTime
  /-- Second `rtc.now()` of `initNightStats`. -/
  rtcLast : DateTime
  /-- Result of `client.connect(thingspeeakServer, 80)`. -/
  tweetConnect : Bool
  /-- Result of `client.connected()` in `updateTwitterStatus`. -/
  tweetConnected : Bool
  /-- Result of `client.connect(sparkfunServer, 80)`. -/
  sparkFunConnect : Bool
  /-- How many times `client.connected()` holds in the wait loop of
  `sendDataToSparkFun` before the connection is closed. -/
  sparkFunPolls : Nat
  /-- Result of `digitalRead(CAPTOUCH_BUTTON)`. -/
  button : Bool
  /-- Whether `digitalRead(PROTOSHIELD_BUTTON) == LOW`. -/
  protoshieldButton : Bool
  /-- Result of `dns.getHostByName`. -/
  dnsOk : Bool
  /-- Whether `Udp.parsePacket()` returned nonzero. -/
  ntpPacket : Bool

/-! ## Functions of the sketch -/

/-- The function `isMirror`: `analogRead(0) > 300`. -/
def isMirror (analog : Nat) : Bool := decide (analog > 300)

/-- The function `isValidHour`. -/
def isValidHour (dateNow : DateTime) : Bool := decide (dateNow.hour ≤ 23)

/-- The function `logDebugMsg`. -/
def logDebugMsg (debugIndex debugMsg : Nat) (s : State) : State :=
  { s with eeprom := EEPROM.write s.eeprom (EEPROMaddrForDebugLog + debugIndex) debugMsg }

/-- The function `initDebugMsgLog`. -/
def initDebugMsgLog (s : State) : State :=
  let e1 := writeBlock s.eeprom EEPROMaddrForDebugLog NUMBER_OF_DEBUG_MESSAGES (fun _ => 0)
  let e2 := EEPROM.write e1 (EEPROMaddrForDebugLog + DEBUG_START_MARKER) 55
  { s with eeprom := EEPROM.write e2 (EEPROMaddrForDebugLog + NUMBER_OF_DEBUG_MESSAGES) 55 }

/-- The function `initResetLog`. -/
def initResetLog (s : State) : State :=
  { s with eeprom := writeBlock s.eeprom EEPROMaddrForResetLog sizeofDateTime (fun _ => 0) }

/-- The function `saveTimeOfLastResetToEEPROM`. -/
def saveTimeOfLastResetToEEPROM (timeOfLastReset : DateTime) (s : State) : State :=
  let e := writeBlock s.eeprom EEPROMaddrForResetLog sizeofDateTime timeOfLastReset.byteAt
  { s with eeprom := e }

/-- The function `readTimeOfLastResetFromEEPROM`; `fresh` is the
default-constructed local the bytes are read into. -/
def readTimeOfLastResetFromEEPROM (fresh : DateTime) (s : State) : DateTime :=
  DateTime.ofImage (readBlock s.eeprom EEPROMaddrForResetLog sizeofDateTime fresh.byteAt)

/-- The function `initNightStats`, with its two clock readings. -/
def initNightStats (rtcFirst rtcLast : DateTime) (s : State) : State :=
  { s with nightStats :=
      { totalDistanceInCm := 0
        dateTimeOfFirstRotationInDateTime := rtcFirst
        dateTimeOfLastRotationInDateTime := rtcLast } }

/-- The function `saveNightStatsToEEPROM`. -/
def saveNightStatsToEEPROM (s : State) : State :=
  let e := writeBlock s.eeprom EEPROMaddrForNightStats sizeofNightStats s.nightStats.byteAt
  { s with eeprom := e }

/-- The function `loadNightStatsFromEEPROM`. -/
def loadNightStatsFromEEPROM (s : State) : State :=
  let img := readBlock s.eeprom EEPROMaddrForNightStats sizeofNightStats s.nightStats.byteAt
  { s with nightStats := HedgieNightStats_t.ofImage img }

/-- The function `isNewHour`: the result and the state after the call. -/
def isNewHour (dateNow : DateTime) (s : State) : Bool × State :=
  if s.prevHour ≠ dateNow.hour then (true, { s with prevHour := dateNow.hour })
  else (false, s)

/-- The function `isNewMinute`: the result and the state after the call. -/
def isNewMinute (dateNow : DateTime) (s : State) : Bool × State :=
  if s.prevMinute ≠ dateNow.minute then (true, { s with prevMinute := dateNow.minute })
  else (false, s)

/-- The function `convertCmsToM`. -/
def convertCmsToM (cms : Nat) : Nat := cms / 100

/-- The function `detectMirror`; `analog` is the sensor reading of its
`isMirror()` call and `now` the reading of its `rtc.now()` calls.  The value
returned by the C function is the `wheelState` of the resulting state. -/
def detectMirror (dateNow : DateTime) (analog : Nat) (now : DateTime) (s : State) : State :=
  if isMirror analog then
    let s1 :=
      if dateNow.hour ≥ 22 ∨ dateNow.hour < 7 then
        if s.statisticsCaptureState = STARTUP_TESTING_DISCARD_HEDGIE_STATISTICS then
          let c := (s.startupTestingCount + 1) % 65536
          if c ≥ STARTUP_COUNT_THRESHOLD then
            { s with startupTestingCount := c,
                     statisticsCaptureState := CAPTURE_HEDGIE_STATISTICS }
          else
            { s with startupTestingCount := c }
        else
          let n :=
            if s.nightStats.totalDistanceInCm = 0 then
              { s.nightStats with dateTimeOfFirstRotationInDateTime := now }
            else
              { s.nightStats with dateTimeOfLastRotationInDateTime := now }
          { s with
              distanceRunIntervalInCm :=
                (s.distanceRunIntervalInCm + WHEEL_CIRCUMFERENCE_IN_CM) % 4294967296,
              nightStats :=
                { n with totalDistanceInCm :=
                    (n.totalDistanceInCm + WHEEL_CIRCUMFERENCE_IN_CM) % 4294967296 } }
      else s
    { s1 with wheelState := WAITING_FOR_WHITE }
  else
    { s with wheelState := WAITING_FOR_MIRROR }

/-- The function `detectWhite`; `analog` is the sensor reading of its
`isMirror()` call.  (`whiteSampleCount` is a 16 bit `int`; it never exceeds 21
when it starts at most 20, so no wrap is written.) -/
def detectWhite (analog : Nat) (s : State) : State :=
  let c : Int := if !isMirror analog then s.whiteSampleCount + 1 else 0
  if c > 20 then
    { s with whiteSampleCount := 0, wheelState := WAITING_FOR_MIRROR }
  else
    { s with whiteSampleCount := c, wheelState := WAITING_FOR_WHITE }

/-- The function `handleButtonPress`; `button` is the result of
`isButtonPress()`.  The display calls that follow the reload only read. -/
def handleButtonPress (dateNow : DateTime) (button : Bool) (s : State) : State :=
  if button then
    if dateNow.hour ≥ 7 ∧ dateNow.hour < 22 then loadNightStatsFromEEPROM s else s
  else s

/-- The function `setupEthernet`. -/
def setupEthernet (dhcpOk : Bool) (s : State) : State :=
  if !dhcpOk then logDebugMsg ETHERNET_DHCP_FAILED ETHERNET_DHCP_FAILED s
  else logDebugMsg ETHERNET_DHCP_OK ETHERNET_DHCP_OK s

/-- The function `constructTwitterMsg`, as far as it touches the state. -/
def constructTwitterMsg (s : State) : State :=
  logDebugMsg ETHERNET_CONNECT_TO_THINGSPEAK_6 ETHERNET_CONNECT_TO_THINGSPEAK_6
    (logDebugMsg ETHERNET_CONNECT_TO_THINGSPEAK_5 ETHERNET_CONNECT_TO_THINGSPEAK_5 s)

/-- The function `updateTwitterStatus`. -/
def updateTwitterStatus (connect connected : Bool) (s : State) : State :=
  let s1 :=
    if connect then
      let a := { s with reports := s.reports ++ [Report.tweet s.nightStats] }
      let b := logDebugMsg ETHERNET_CONNECT_TO_THINGSPEAK_OK_1
        ETHERNET_CONNECT_TO_THINGSPEAK_OK_1 a
      if connected then
        logDebugMsg ETHERNET_CONNECT_TO_THINGSPEAK_OK_2 ETHERNET_CONNECT_TO_THINGSPEAK_OK_2 b
      else
        logDebugMsg ETHERNET_CONNECT_TO_THINGSPEAK_FAILED_2
          ETHERNET_CONNECT_TO_THINGSPEAK_FAILED_2 b
    else
      logDebugMsg ETHERNET_CONNECT_TO_THINGSPEAK_FAILED_1
        ETHERNET_CONNECT_TO_THINGSPEAK_FAILED_1 s
  logDebugMsg ETHERNET_CONNECT_TO_THINGSPEAK_4 ETHERNET_CONNECT_TO_THINGSPEAK_4
    (logDebugMsg ETHERNET_CONNECT_TO_THINGSPEAK_3 ETHERNET_CONNECT_TO_THINGSPEAK_3 s1)

/-- The function `tweetNightStats`. -/
def tweetNightStats (connect connected : Bool) (s : State) : State :=
  updateTwitterStatus connect connected (constructTwitterMsg s)

/-- The function `sendDataToSparkFun`; `connect` is the result of
`client.connect(sparkfunServer, 80)` and `polls` the number of rounds of the
loop `while (client.connected())`, whose body reads and drops one character
of the response. -/
def sendDataToSparkFun (dateNow : DateTime) (distanceRunIntervalInCm : Nat)
    (connect : Bool) (polls : Nat) (s : State) : State :=
  let s1 :=
    if connect then
      { s with reports := s.reports ++ [Report.sparkFun dateNow distanceRunIntervalInCm] }
    else s
  (List.range polls).foldl (fun acc _ => acc) s1

/-- The function `sendNTPpacket`, as far as it touches the state. -/
def sendNTPpacket (s : State) : State :=
  logDebugMsg ETHERNET_NTP_9 ETHERNET_NTP_9
    (logDebugMsg ETHERNET_NTP_8 ETHERNET_NTP_8
      (logDebugMsg ETHERNET_NTP_7 ETHERNET_NTP_7
        (logDebugMsg ETHERNET_NTP_6 ETHERNET_NTP_6 s)))

/-- The function `getNTP`, as far as it touches the state. -/
def getNTP (dnsOk ntpPacket : Bool) (s : State) : State :=
  let s1 := logDebugMsg ETHERNET_NTP_10 ETHERNET_NTP_10 s
  let s2 :=
    if dnsOk then logDebugMsg ETHERNET_NTP_11 ETHERNET_NTP_11 s1
    else logDebugMsg ETHERNET_NTP_12 ETHERNET_NTP_12 s1
  let s3 := logDebugMsg ETHERNET_NTP_1 ETHERNET_NTP_1 s2
  let s4 := logDebugMsg ETHERNET_NTP_2 ETHERNET_NTP_2 (sendNTPpacket s3)
  let s5 := logDebugMsg ETHERNET_NTP_3 ETHERNET_NTP_3 s4
  if ntpPacket then logDebugMsg ETHERNET_NTP_4 ETHERNET_NTP_4 s5 else s5

/-- The function `updateRtcUsingNTP`; the adjusted clock shows in later
readings, which are inputs. -/
def updateRtcUsingNTP (dnsOk ntpPacket : Bool) (s : State) : State :=
  getNTP dnsOk ntpPacket s

/-- The function `setup`, run on the state `s` found at power-up. -/
def setup (i : SetupInput) (s : State) : State :=
  let s1 := { s with wheelState := DETERMINE_MIRROR_LOCATION, distanceRunIntervalInCm := 0 }
  let s2 :=
    if i.dateNow.hour ≥ 7 ∧ i.dateNow.hour < 22 then
      initNightStats i.rtcFirst i.rtcLast
        { s1 with startupTestingCount := 0,
                  statisticsCaptureState := STARTUP_TESTING_DISCARD_HEDGIE_STATISTICS }
    else
      saveTimeOfLastResetToEEPROM i.dateNow
        (loadNightStatsFromEEPROM
          { s1 with startupTestingCount := STARTUP_COUNT_THRESHOLD,
                    statisticsCaptureState := CAPTURE_HEDGIE_STATISTICS })
  let s3 := { s2 with prevHour := i.dateNow.hour, prevMinute := i.dateNow.minute }
  let s4 := setupEthernet i.dhcpOk s3
  { s4 with uptimeInMinutes := 0 }

/-- The state the globals have at power-up, before `setup`: the static
initialisers of the sketch, the EEPROM contents `e` that survived, and the
default-constructed `DateTime` value `t0` of the library. -/
def powerOn (e : EEPROM) (t0 : DateTime) : State :=
  { nightStats :=
      { totalDistanceInCm := 0
        dateTimeOfFirstRotationInDateTime := t0
        dateTimeOfLastRotationInDateTime := t0 }
    distanceRunIntervalInCm := 0
    whiteSampleCount := 0
    startupTestingCount := 0
    uptimeInMinutes := 0
    statisticsCaptureState := STARTUP_TESTING_DISCARD_HEDGIE_STATISTICS
    wheelState := DETERMINE_MIRROR_LOCATION
    prevHour := 0
    prevMinute := 0
    eeprom := e
    reports := [] }

/-- The first statement group of `loop`: the values of `newHour` and
`newMinute` after `if (isValidHour(dateNow) == true) ...`, and the state. -/
def observeClock (i : LoopInput) (s : State) : Bool × Bool × State :=
  if isValidHour i.dateNow = true then
    let h := isNewHour i.dateNow s
    let m := isNewMinute i.dateNow h.2
    (h.1, m.1, m.2)
  else
    (i.newHourResidue, i.newMinuteResidue, s)

/-- The `switch (wheelState)` of `loop`. -/
def wheelSwitch (i : LoopInput) (s : State) : State :=
  match s.wheelState with
  | DETERMINE_MIRROR_LOCATION =>
    if isMirror i.analog then { s with wheelState := WAITING_FOR_WHITE }
    else { s with wheelState := WAITING_FOR_MIRROR }
  | WAITING_FOR_MIRROR => detectMirror i.dateNow i.analog i.rtcRotation s
  | WAITING_FOR_WHITE => detectWhite i.analog s

/-- The 10pm block of `loop`. -/
def sessionStart (i : LoopInput) (newHour : Bool) (s : State) : State :=
  if newHour && decide (i.dateNow.hour = 22) then
    let s1 := { s with wheelState := DETERMINE_MIRROR_LOCATION }
    let s2 := initNightStats i.rtcFirst i.rtcLast s1
    let s3 := saveNightStatsToEEPROM s2
    let s4 := initDebugMsgLog s3
    let s5 := initResetLog s4
    { s5 with distanceRunIntervalInCm := 0,
              statisticsCaptureState := STARTUP_TESTING_DISCARD_HEDGIE_STATISTICS,
              startupTestingCount := 0 }
  else s

/-- The 7am block of `loop`. -/
def morningTweet (i : LoopInput) (newHour : Bool) (s : State) : State :=
  if newHour && decide (i.dateNow.hour = 7) then tweetNightStats i.tweetConnect i.tweetConnected s
  else s

/-- The block of `loop` that pushes temperature and uptime every 5 minutes. -/
def telemetryTick (i : LoopInput) (newMinute : Bool) (s : State) : State :=
  if newMinute && decide (i.dateNow.minute % 5 = 0) then
    { s with reports := s.reports ++ [Report.temperature, Report.uptime s.uptimeInMinutes],
             uptimeInMinutes := (s.uptimeInMinutes + 5) % 4294967296 }
  else s

/-- The condition of the interval-report block of `loop`. -/
def intervalReportDue (i : LoopInput) (newHour newMinute : Bool) : Bool :=
  (decide (i.dateNow.hour ≥ 22) || decide (i.dateNow.hour < 7) ||
      (newHour && decide (i.dateNow.hour = 7))) &&
    (newMinute && decide (i.dateNow.minute % 5 = 0))

/-- The interval-report block of `loop`, with its `else` branch. -/
def intervalReport (i : LoopInput) (newHour newMinute : Bool) (s : State) : State :=
  if intervalReportDue i newHour newMinute then
    let r := Report.distance (convertCmsToM s.nightStats.totalDistanceInCm)
    let s1 := { s with reports := s.reports ++ [r] }
    let s2 := sendDataToSparkFun i.dateNow s1.distanceRunIntervalInCm
      i.sparkFunConnect i.sparkFunPolls s1
    let s3 := saveNightStatsToEEPROM s2
    { s3 with distanceRunIntervalInCm := 0 }
  else if newMinute && decide (i.dateNow.minute % 5 = 0) then
    { s with reports := s.reports ++ [Report.distance 0] }
  else s

/-- The function `loop`: one cycle of the control loop. -/
def loop (i : LoopInput) (s : State) : State :=
  let o := observeClock i s
  let newHour := o.1
  let newMinute := o.2.1
  let s1 := wheelSwitch i o.2.2
  let s2 := sessionStart i newHour s1
  let s3 := morningTweet i newHour s2
  let s4 := telemetryTick i newMinute s3
  let s5 := intervalReport i newHour newMinute s4
  let s6 := handleButtonPress i.dateNow i.button s5
  if i.protoshieldButton then updateRtcUsingNTP i.dnsOk i.ntpPacket s6 else s6

/-- Whether the cycle with input `i` taken in state `s` detects a rotation:
the wheel switch calls `detectMirror` and its `isMirror()` holds. -/
def rotationEvent (i : LoopInput) (s : State) : Bool :=
  decide (s.wheelState = WAITING_FOR_MIRROR) && isMirror i.analog

/-- The states after each of the cycles `is`, run from `s`. -/
def runLoop (s : State) (is : List LoopInput) : State :=
  is.foldl (fun acc i => loop i acc) s

/-- The record held by the night-stats region of the EEPROM `e`. -/
def durableNightStats (e : EEPROM) : HedgieNightStats_t :=
  HedgieNightStats_t.ofImage (fun k => EEPROM.read e (EEPROMaddrForNightStats + k))

/-- The EEPROM operations other than the night-stats save that `setup` and the
10pm block of `loop` perform. -/
inductive MidOp
  | saveTimeOfLastReset (t : DateTime)
  | initResetLog
  | initDebugMsgLog

/-- Run one of the operations of `MidOp`. -/
def MidOp.run : MidOp → State → State
  | MidOp.saveTimeOfLastReset t, s => saveTimeOfLastResetToEEPROM t s
  | MidOp.initResetLog, s => Hedgie.initResetLog s
  | MidOp.initDebugMsgLog, s => Hedgie.initDebugMsgLog s

/-- A sample clock reading: 2015-03-14, `hh:mm:09`. -/
def sampleTime (hh mm : Nat) : DateTime :=
  { yOff := 15, m := 3, d := 14, hh := hh, mm := mm, ss := 9 }

/-- A sample record: 123 rotations, first at 22:17 and last at 04:41. -/
def sampleStats : HedgieNightStats_t :=
  { totalDistanceInCm := 10455
    dateTimeOfFirstRotationInDateTime := sampleTime 22 17
    dateTimeOfLastRotationInDateTime := sampleTime 4 41 }

/-- A sample power-up state whose EEPROM holds 7 in every cell. -/
def sampleBoot : State := powerOn (fun _ => 7) (sampleTime 0 0)

/-- Sample operations run between a save and the reset. -/
def sampleOps : List MidOp :=
  [MidOp.initDebugMsgLog, MidOp.saveTimeOfLastReset (sampleTime 23 5), MidOp.initResetLog]

/-- The sample state after a reset: the globals are back at their power-up
values, the EEPROM is the one left by saving `sampleStats` and `sampleOps`. -/
def sampleAfterReset : State :=
  { sampleBoot with eeprom :=
      (sampleOps.foldl (fun acc op => op.run acc)
        (saveNightStatsToEEPROM { sampleBoot with nightStats := sampleStats })).eeprom }

/-- Sample input of `setup` at `hh:mm` in which every clock reading is the
boot reading and DHCP succeeds. -/
def sampleSetupInput (hh mm : Nat) : SetupInput :=
  { dateNow := sampleTime hh mm, rtcFirst := sampleTime hh mm, rtcLast := sampleTime hh mm,
    dhcpOk := true }

/-- The state after the rotation events `is`: each is a call of `detectMirror`
with the clock and sensor readings of the cycle `i`. -/
def rotationRun (s : State) (is : List LoopInput) : State :=
  is.foldl (fun acc i => detectMirror i.dateNow i.analog i.rtcRotation acc) s

/-- For each of the cycles `is`, run from `s` by the wheel switch alone,
whether the cycle detects a rotation. -/
def wheelEvents : State → List LoopInput → List Bool
  | _, [] => []
  | s, i :: is => rotationEvent i s :: wheelEvents (wheelSwitch i s) is

/-- For each of the cycles `is` of `loop`, run from `s`, whether the cycle
detects a rotation. -/
def loopEvents : State → List LoopInput → List Bool
  | _, [] => []
  | s, i :: is => rotationEvent i s :: loopEvents (loop i s) is

/-- The least number of cycles that precede the next rotation event. -/
def cyclesBeforeEvent (s : State) : Nat :=
  match s.wheelState with
  | DETERMINE_MIRROR_LOCATION => 1
  | WAITING_FOR_MIRROR => 0
  | WAITING_FOR_WHITE => (21 - s.whiteSampleCount).toNat

/-- The counter of consecutive white samples is 0 outside `WAITING_FOR_WHITE`
and between 0 and 20 inside. -/
def whiteCountOk (s : State) : Prop :=
  (s.wheelState ≠ WAITING_FOR_WHITE → s.whiteSampleCount = 0) ∧
    0 ≤ s.whiteSampleCount ∧ s.whiteSampleCount ≤ 20

/-- Sample cycle input at `hh:mm` with sensor reading `analog`: every clock
reading of the cycle is `hh:mm`, no button is pressed, the uninitialised
locals hold `false`, the network calls succeed and the SparkFun server closes
the connection after three polls. -/
def sampleCycle (hh mm analog : Nat) : LoopInput :=
  { dateNow := sampleTime hh mm
    newHourResidue := false
    newMinuteResidue := false
    analog := analog
    rtcRotation := sampleTime hh mm
    rtcFirst := sampleTime hh mm
    rtcLast := sampleTime hh mm
    tweetConnect := true
    tweetConnected := true
    sparkFunConnect := true
    sparkFunPolls := 3
    button := false
    protoshieldButton := false
    dnsOk := true
    ntpPacket := true }

/-- Sample state in the middle of a night: capturing, two rotations since the
last interval report, the durable region still at the record `sampleStats`
while the live record is two rotations ahead. -/
def sampleNight : State :=
  { nightStats := { sampleStats with totalDistanceInCm := 10625 }
    distanceRunIntervalInCm := 170
    whiteSampleCount := 0
    startupTestingCount := 10
    uptimeInMinutes := 330
    statisticsCaptureState := CAPTURE_HEDGIE_STATISTICS
    wheelState := WAITING_FOR_MIRROR
    prevHour := 4
    prevMinute := 43
    eeprom := sampleAfterReset.eeprom
    reports := [] }

/-- Sample evening: after a boot at 21:59 the sensor sees the mirror once and
then white; the clock reaches 22:00 in the cycle of the 20th white sample;
after one more white sample the mirror passes twice with a single white sample
in between. -/
def sampleDusk : List LoopInput :=
  [sampleCycle 21 59 512] ++ List.replicate 19 (sampleCycle 21 59 100) ++
    [sampleCycle 22 0 100, sampleCycle 22 0 100, sampleCycle 22 0 512,
     sampleCycle 22 0 100, sampleCycle 22 0 512]

/-- Progress of the warm-up and of the count after `n` rotation events. -/
def warmupInv (n : Nat) (s : State) : Prop :=
  (n < 10 → s.statisticsCaptureState = STARTUP_TESTING_DISCARD_HEDGIE_STATISTICS ∧
      s.startupTestingCount = n ∧ s.nightStats.totalDistanceInCm = 0) ∧
  (10 ≤ n → s.statisticsCaptureState = CAPTURE_HEDGIE_STATISTICS ∧
      s.nightStats.totalDistanceInCm = 85 * (n - 10) % 4294967296)

/-- Sample fresh session: the state after a boot at 21:59. -/
def sampleFresh : State := setup (sampleSetupInput 21 59) sampleAfterReset

/-- Sample state in the middle of the following day: still capturing, the
interval accumulator back at 0, clock last seen at 10:15. -/
def sampleDay : State :=
  { sampleNight with distanceRunIntervalInCm := 0, prevHour := 10, prevMinute := 15 }

/-- Sample cycle with the corrupted clock reading 153:165 in which the
never-assigned local `newMinute` holds `true` and the sensor sees white. -/
def sampleBogusTick : LoopInput :=
  { sampleCycle 153 165 100 with newMinuteResidue := true }

/-- Sample cycle with the corrupted clock reading 153:165 in which the sensor
sees the mirror; the clock read inside `detectMirror` returns 10:15. -/
def sampleBogusRotation : LoopInput :=
  { sampleCycle 153 165 512 with rtcRotation := sampleTime 10 15 }

/-- The part of `loop` up to and including the 10pm block. -/
def loopHead (i : LoopInput) (s : State) : State :=
  sessionStart i (observeClock i s).1 (wheelSwitch i (observeClock i s).2.2)

/-- The part of `loop` after the 10pm block, for the values `newHour` and
`newMinute` of the locals. -/
def loopTail (i : LoopInput) (newHour newMinute : Bool) (s : State) : State :=
  let s3 := morningTweet i newHour s
  let s4 := telemetryTick i newMinute s3
  let s5 := intervalReport i newHour newMinute s4
  let s6 := handleButtonPress i.dateNow i.button s5
  if i.protoshieldButton then updateRtcUsingNTP i.dnsOk i.ntpPacket s6 else s6

/-- The capture state is WARMUP exactly while the warm-up counter is below the
threshold, and the counter is at most the threshold. -/
def gateInv (s : State) : Prop :=
  (s.statisticsCaptureState = STARTUP_TESTING_DISCARD_HEDGIE_STATISTICS ↔
      s.startupTestingCount < STARTUP_COUNT_THRESHOLD) ∧
    s.startupTestingCount ≤ STARTUP_COUNT_THRESHOLD

/-- Sample cycle: the first reading of 22:00, the sensor sees white and the
protoshield button is held down. -/
def sampleTenWithNtp : LoopInput :=
  { sampleCycle 22 0 100 with protoshieldButton := true }

/-- Sample start of a session, all in the night window: ten warm-up
rotations at 22:30 and a rotation at 23:05. -/
def sampleSessionStart : List LoopInput :=
  List.replicate 10 (sampleCycle 22 30 512) ++ [sampleCycle 23 5 512]

/-- Sample continuation: 4294967295 rotations at 23:30. -/
def sampleWrap : List LoopInput := List.replicate 4294967295 (sampleCycle 23 30 512)

/-- Sample session of more than 2^32 rotations: `sampleSessionStart`, then
`sampleWrap`, then one more rotation at 02:00. -/
def sampleEndless : List LoopInput :=
  (sampleSessionStart ++ sampleWrap) ++ [sampleCycle 2 0 512]

/-- Sample recovery: the state after a boot at 23:05 over the EEPROM that
holds `sampleStats`. -/
def sampleRecovered : State := setup (sampleSetupInput 23 5) sampleAfterReset

/-- Sample cycles after the recovery, all reading 23:05: the sensor sees
white, then the mirror, then white while the protoshield button is pressed
(the clock is set from the network). -/
def sampleClockFix : List LoopInput :=
  [sampleCycle 23 5 100, sampleCycle 23 5 512,
   { sampleCycle 23 5 100 with protoshieldButton := true }]

/-- Sample cycle at 10:15 (the corrected clock) with the display button
pressed. -/
def sampleReload : LoopInput := { sampleCycle 10 15 100 with button := true }

/-! ## Auxiliary facts about the block loops -/

theorem writeBlock_succ (e : EEPROM) (addr n : Nat) (img : Nat → Nat) :
    writeBlock e addr (n + 1) img
      = EEPROM.write (writeBlock e addr n img) (addr + n) (img n) := by
  simp [writeBlock, List.range_succ, List.foldl_append]

theorem writeBlock_apply (e : EEPROM) (addr n : Nat) (img : Nat → Nat) (a : Nat) :
    writeBlock e addr n img a
      = if addr ≤ a ∧ a < addr + n then img (a - addr) % 256 else e a := by
  induction n with
  | zero =>
    have h : ¬ (addr ≤ a ∧ a < addr) := by omega
    simp [writeBlock, h]
  | succ n ih =>
    rw [writeBlock_succ]
    unfold EEPROM.write
    by_cases h : a = addr + n
    · subst h
      have h2 : addr ≤ addr + n ∧ addr + n < addr + (n + 1) := by omega
      simp [h2]
    · rw [if_neg h, ih]
      by_cases h3 : addr ≤ a ∧ a < addr + n
      · have h4 : addr ≤ a ∧ a < addr + (n + 1) := by omega
        rw [if_pos h3, if_pos h4]
      · have h4 : ¬ (addr ≤ a ∧ a < addr + (n + 1)) := by omega
        rw [if_neg h3, if_neg h4]

theorem readBlock_succ (e : EEPROM) (addr n : Nat) (img : Nat → Nat) :
    readBlock e addr (n + 1) img
      = pokeByte (readBlock e addr n img) n (EEPROM.read e (addr + n)) := by
  simp [readBlock, List.range_succ, List.foldl_append]

theorem readBlock_apply (e : EEPROM) (addr n : Nat) (img : Nat → Nat) (k : Nat) :
    readBlock e addr n img k = if k < n then EEPROM.read e (addr + k) else img k := by
  induction n with
  | zero => simp [readBlock]
  | succ n ih =>
    rw [readBlock_succ]
    unfold pokeByte
    by_cases h : k = n
    · subst h
      simp
    · rw [if_neg h, ih]
      by_cases h3 : k < n
      · have h4 : k < n + 1 := by omega
        rw [if_pos h3, if_pos h4]
      · have h4 : ¬ k < n + 1 := by omega
        rw [if_neg h3, if_neg h4]

/-- Loading the night stats yields the record held by the durable region. -/
theorem loadNightStats_nightStats (s : State) :
    (loadNightStatsFromEEPROM s).nightStats = durableNightStats s.eeprom := by
  simp [loadNightStatsFromEEPROM, durableNightStats, HedgieNightStats_t.ofImage,
    DateTime.ofImage, readBlock_apply, sizeofNightStats]

theorem loadNightStats_eeprom (s : State) :
    (loadNightStatsFromEEPROM s).eeprom = s.eeprom := rfl

/-- Decoding the bytes of a well-formed time gives the time back. -/
theorem DateTime.ofImage_time_bytes (t : DateTime) (h : t.wf) :
    DateTime.ofImage (fun k => t.byteAt k % 256) = t := by
  obtain ⟨h1, h2, h3, h4, h5, h6⟩ := h
  cases t
  simp only [DateTime.ofImage, DateTime.byteAt] at *
  simp [Nat.mod_eq_of_lt, *]

/-- Decoding the bytes of a well-formed record gives the record back. -/
theorem HedgieNightStats_t.ofImage_record_bytes (n : HedgieNightStats_t) (h : n.wf) :
    HedgieNightStats_t.ofImage (fun k => n.byteAt k % 256) = n := by
  obtain ⟨h1, h2, h3⟩ := h
  obtain ⟨a1, a2, a3, a4, a5, a6⟩ := h2
  obtain ⟨b1, b2, b3, b4, b5, b6⟩ := h3
  cases n with
  | mk total first last =>
    cases first
    cases last
    simp only [HedgieNightStats_t.ofImage, HedgieNightStats_t.byteAt, DateTime.ofImage,
      DateTime.byteAt] at *
    simp [Nat.mod_eq_of_lt, *]
    omega

/-- The durable record after a save, whatever ran on the other regions. -/
theorem durableNightStats_of_region (e : EEPROM) (n : HedgieNightStats_t) (h : n.wf)
    (hreg : ∀ k, k < 16 → e (EEPROMaddrForNightStats + k) = n.byteAt k % 256) :
    durableNightStats e = n := by
  have e0 : e EEPROMaddrForNightStats = n.byteAt 0 % 256 := by
    simpa using hreg 0 (by omega)
  have key : durableNightStats e = HedgieNightStats_t.ofImage (fun k => n.byteAt k % 256) := by
    simp [durableNightStats, HedgieNightStats_t.ofImage, DateTime.ofImage, EEPROM.read, hreg, e0]
  rw [key, HedgieNightStats_t.ofImage_record_bytes n h]

theorem saveNightStats_region (s : State) (k : Nat) (hk : k < 16) :
    (saveNightStatsToEEPROM s).eeprom (EEPROMaddrForNightStats + k)
      = s.nightStats.byteAt k % 256 := by
  have h : k < sizeofNightStats := hk
  simp [saveNightStatsToEEPROM, writeBlock_apply, h]

theorem saveNightStats_other (s : State) (a : Nat) (h : a < 800 ∨ 816 ≤ a) :
    (saveNightStatsToEEPROM s).eeprom a = s.eeprom a := by
  have h2 : ¬ (EEPROMaddrForNightStats ≤ a ∧ a < EEPROMaddrForNightStats + sizeofNightStats) := by
    simp only [EEPROMaddrForNightStats, sizeofNightStats]; omega
  simp [saveNightStatsToEEPROM, writeBlock_apply, h2]

theorem saveTimeOfLastReset_other (t : DateTime) (s : State) (a : Nat)
    (h : a < 200 ∨ 206 ≤ a) :
    (saveTimeOfLastResetToEEPROM t s).eeprom a = s.eeprom a := by
  have h2 : ¬ (EEPROMaddrForResetLog ≤ a ∧ a < EEPROMaddrForResetLog + sizeofDateTime) := by
    simp only [EEPROMaddrForResetLog, sizeofDateTime]; omega
  simp [saveTimeOfLastResetToEEPROM, writeBlock_apply, h2]

theorem saveTimeOfLastReset_region (t : DateTime) (s : State) (k : Nat) (hk : k < 6) :
    (saveTimeOfLastResetToEEPROM t s).eeprom (EEPROMaddrForResetLog + k) = t.byteAt k % 256 := by
  have h : k < sizeofDateTime := hk
  simp [saveTimeOfLastResetToEEPROM, writeBlock_apply, h]

theorem initResetLog_other (s : State) (a : Nat) (h : a < 200 ∨ 206 ≤ a) :
    (initResetLog s).eeprom a = s.eeprom a := by
  have h2 : ¬ (EEPROMaddrForResetLog ≤ a ∧ a < EEPROMaddrForResetLog + sizeofDateTime) := by
    simp only [EEPROMaddrForResetLog, sizeofDateTime]; omega
  simp [initResetLog, writeBlock_apply, h2]

theorem initDebugMsgLog_other (s : State) (a : Nat) (h : a < 100 ∨ 124 ≤ a) :
    (initDebugMsgLog s).eeprom a = s.eeprom a := by
  have h2 : ¬ (EEPROMaddrForDebugLog ≤ a ∧
      a < EEPROMaddrForDebugLog + NUMBER_OF_DEBUG_MESSAGES) := by
    simp only [EEPROMaddrForDebugLog, NUMBER_OF_DEBUG_MESSAGES]; omega
  have h3 : a ≠ EEPROMaddrForDebugLog + DEBUG_START_MARKER := by
    simp only [EEPROMaddrForDebugLog, DEBUG_START_MARKER]; omega
  have h4 : a ≠ EEPROMaddrForDebugLog + NUMBER_OF_DEBUG_MESSAGES := by
    simp only [EEPROMaddrForDebugLog, NUMBER_OF_DEBUG_MESSAGES]; omega
  simp [initDebugMsgLog, EEPROM.write, writeBlock_apply, h2, h3, h4]

theorem logDebugMsg_other (idx msg : Nat) (s : State) (a : Nat) (h : a ≠ 100 + idx) :
    (logDebugMsg idx msg s).eeprom a = s.eeprom a := by
  have h2 : a ≠ EEPROMaddrForDebugLog + idx := h
  simp [logDebugMsg, EEPROM.write, h2]

theorem MidOp.run_other (op : MidOp) (s : State) (a : Nat) (h : 206 ≤ a) :
    (op.run s).eeprom a = s.eeprom a := by
  cases op with
  | saveTimeOfLastReset t => exact saveTimeOfLastReset_other t s a (Or.inr h)
  | initResetLog => exact initResetLog_other s a (Or.inr h)
  | initDebugMsgLog => exact initDebugMsgLog_other s a (Or.inr (by omega))

theorem MidOp.runAll_other (ops : List MidOp) (s : State) (a : Nat) (h : 206 ≤ a) :
    (ops.foldl (fun acc op => op.run acc) s).eeprom a = s.eeprom a := by
  induction ops generalizing s with
  | nil => rfl
  | cons op rest ih =>
    rw [List.foldl_cons, ih, MidOp.run_other op s a h]

theorem durableNightStats_congr (e1 e2 : EEPROM)
    (h : ∀ k, k < 16 → e1 (EEPROMaddrForNightStats + k) = e2 (EEPROMaddrForNightStats + k)) :
    durableNightStats e1 = durableNightStats e2 := by
  have e0 : e1 EEPROMaddrForNightStats = e2 EEPROMaddrForNightStats := by
    simpa using h 0 (by omega)
  simp [durableNightStats, HedgieNightStats_t.ofImage, DateTime.ofImage, EEPROM.read, h, e0]

/-! ## Auxiliary facts about `setup` -/

theorem setupEthernet_other (b : Bool) (s : State) (a : Nat) (h : a < 100 ∨ 124 ≤ a) :
    (setupEthernet b s).eeprom a = s.eeprom a := by
  cases b
  · exact logDebugMsg_other _ _ s a (by simp only [ETHERNET_DHCP_FAILED]; omega)
  · exact logDebugMsg_other _ _ s a (by simp only [ETHERNET_DHCP_OK]; omega)

theorem setup_night_eeprom (i : SetupInput) (s : State)
    (hnight : i.dateNow.hour ≥ 22 ∨ i.dateNow.hour < 7) :
    (setup i s).eeprom
      = (setupEthernet i.dhcpOk (saveTimeOfLastResetToEEPROM i.dateNow s)).eeprom := by
  have h : ¬ (i.dateNow.hour ≥ 7 ∧ i.dateNow.hour < 22) := by omega
  cases hd : i.dhcpOk <;>
  simp [setup, h, hd, setupEthernet, logDebugMsg, saveTimeOfLastResetToEEPROM, loadNightStatsFromEEPROM]

theorem setup_night_nightStats (i : SetupInput) (s : State)
    (hnight : i.dateNow.hour ≥ 22 ∨ i.dateNow.hour < 7) :
    (setup i s).nightStats = durableNightStats s.eeprom := by
  have h : ¬ (i.dateNow.hour ≥ 7 ∧ i.dateNow.hour < 22) := by omega
  rw [← loadNightStats_nightStats]
  cases hd : i.dhcpOk <;>
  simp [setup, h, hd, setupEthernet, logDebugMsg, saveTimeOfLastResetToEEPROM, loadNightStatsFromEEPROM]

theorem setup_day_fields (i : SetupInput) (s : State)
    (hday : i.dateNow.hour ≥ 7 ∧ i.dateNow.hour < 22) :
    (setup i s).nightStats = ⟨0, i.rtcFirst, i.rtcLast⟩ ∧
    (setup i s).statisticsCaptureState = STARTUP_TESTING_DISCARD_HEDGIE_STATISTICS ∧
    (setup i s).startupTestingCount = 0 ∧
    (setup i s).distanceRunIntervalInCm = 0 ∧
    (setup i s).wheelState = DETERMINE_MIRROR_LOCATION ∧
    (setup i s).eeprom = (setupEthernet i.dhcpOk s).eeprom := by
  cases hd : i.dhcpOk <;>
  simp [setup, hday, hd, setupEthernet, logDebugMsg, initNightStats]

/-! ## Auxiliary facts about the capture gate -/

theorem detectMirror_warmupInv (n : Nat) (s : State) (dateNow now : DateTime) (analog : Nat)
    (hm : isMirror analog = true) (hnight : dateNow.hour ≥ 22 ∨ dateNow.hour < 7)
    (h : warmupInv n s) : warmupInv (n + 1) (detectMirror dateNow analog now s) := by
  obtain ⟨hlo, hhi⟩ := h
  by_cases hn : n < 10
  · obtain ⟨hc, hcount, htot⟩ := hlo hn
    have hc1 : (n + 1) % 65536 = n + 1 := Nat.mod_eq_of_lt (by omega)
    by_cases hn9 : n + 1 ≥ 10
    · have h9 : n = 9 := by omega
      subst h9
      constructor
      · intro h; omega
      · intro _
        simp [detectMirror, hm, hnight, hc, hcount, STARTUP_COUNT_THRESHOLD, htot]
    · constructor
      · intro _
        have : ¬ (10 ≤ n + 1) := by omega
        simp [detectMirror, hm, hnight, hc, hcount, STARTUP_COUNT_THRESHOLD, htot, hc1, this]
      · intro h; omega
  · obtain ⟨hc, htot⟩ := hhi (by omega)
    constructor
    · intro h; omega
    · intro _
      by_cases hz : s.nightStats.totalDistanceInCm = 0
      · simp [detectMirror, hm, hnight, hc, hz, WHEEL_CIRCUMFERENCE_IN_CM]
        rw [hz] at htot
        omega
      · simp [detectMirror, hm, hnight, hc, hz, WHEEL_CIRCUMFERENCE_IN_CM]
        omega

theorem rotationRun_warmupInv (is : List LoopInput) (n : Nat) (s : State)
    (hall : ∀ i ∈ is, isMirror i.analog = true ∧ (i.dateNow.hour ≥ 22 ∨ i.dateNow.hour < 7))
    (h : warmupInv n s) : warmupInv (n + is.length) (rotationRun s is) := by
  induction is generalizing n s with
  | nil => simpa [rotationRun] using h
  | cons i rest ih =>
    have hi := hall i (List.mem_cons_self i rest)
    have hrest : ∀ j ∈ rest, isMirror j.analog = true ∧
        (j.dateNow.hour ≥ 22 ∨ j.dateNow.hour < 7) :=
      fun j hj => hall j (List.mem_cons_of_mem i hj)
    have step := detectMirror_warmupInv n s i.dateNow i.rtcRotation i.analog hi.1 hi.2 h
    have := ih (n + 1) _ hrest step
    rw [List.length_cons]
    have e : n + (rest.length + 1) = n + 1 + rest.length := by omega
    rw [e]
    simpa [rotationRun] using this

/-! ## Auxiliary facts about the wheel switch -/

theorem detectMirror_wheelState (dateNow now : DateTime) (analog : Nat) (s : State) :
    (detectMirror dateNow analog now s).wheelState
      = if isMirror analog then WAITING_FOR_WHITE else WAITING_FOR_MIRROR := by
  unfold detectMirror
  split <;> rfl

theorem detectMirror_whiteSampleCount (dateNow now : DateTime) (analog : Nat) (s : State) :
    (detectMirror dateNow analog now s).whiteSampleCount = s.whiteSampleCount := by
  unfold detectMirror
  split
  · split
    · split
      · simp only []
        split <;> rfl
      · rfl
    · rfl
  · rfl

theorem wheelSwitch_whiteCountOk (i : LoopInput) (s : State) (h : whiteCountOk s) :
    whiteCountOk (wheelSwitch i s) := by
  obtain ⟨h1, h2, h3⟩ := h
  unfold wheelSwitch
  split
  next hw =>
    have h0 : s.whiteSampleCount = 0 := h1 (by rw [hw]; decide)
    split <;> simp [whiteCountOk, h0]
  next hw =>
    have h0 : s.whiteSampleCount = 0 := h1 (by rw [hw]; decide)
    simp [whiteCountOk, detectMirror_wheelState, detectMirror_whiteSampleCount, h0]
  next hw =>
    unfold detectWhite
    cases hm : isMirror i.analog
    · by_cases hc : s.whiteSampleCount + 1 > 20
      · simp [whiteCountOk, hc]
      · simp [whiteCountOk, hc]
        omega
    · simp [whiteCountOk]

theorem wheelSwitch_after_mark (i : LoopInput) (s : State) (h : whiteCountOk s)
    (hm : isMirror i.analog = true) :
    (wheelSwitch i s).wheelState = WAITING_FOR_WHITE ∧ (wheelSwitch i s).whiteSampleCount = 0 := by
  obtain ⟨h1, h2, h3⟩ := h
  unfold wheelSwitch
  split
  next hw =>
    have h0 : s.whiteSampleCount = 0 := h1 (by rw [hw]; decide)
    simp [hm, h0]
  next hw =>
    have h0 : s.whiteSampleCount = 0 := h1 (by rw [hw]; decide)
    simp [detectMirror_wheelState, detectMirror_whiteSampleCount, h0, hm]
  next hw =>
    simp [detectWhite, hm]

theorem cyclesBeforeEvent_step (i : LoopInput) (s : State) (h : whiteCountOk s) :
    cyclesBeforeEvent s ≤ cyclesBeforeEvent (wheelSwitch i s) + 1 := by
  obtain ⟨h1, h2, h3⟩ := h
  cases hw : s.wheelState
  · simp [cyclesBeforeEvent, hw]
  · simp [cyclesBeforeEvent, hw]
  · have e : wheelSwitch i s = detectWhite i.analog s := by simp [wheelSwitch, hw]
    rw [e]
    unfold detectWhite
    cases hm : isMirror i.analog
    · by_cases hc : s.whiteSampleCount + 1 > 20
      · simp [cyclesBeforeEvent, hw, hc]
        omega
      · simp [cyclesBeforeEvent, hw, hc]
        omega
    · simp [cyclesBeforeEvent, hw]
      omega

theorem wheelEvents_not_before (is : List LoopInput) (s : State) (k : Nat)
    (h : whiteCountOk s) (hev : (wheelEvents s is).getD k false = true) :
    cyclesBeforeEvent s ≤ k := by
  induction is generalizing s k with
  | nil => simp [wheelEvents] at hev
  | cons i rest ih =>
    cases k with
    | zero =>
      simp [wheelEvents, rotationEvent] at hev
      simp [cyclesBeforeEvent, hev.1]
    | succ k =>
      rw [wheelEvents, List.getD_cons_succ] at hev
      have := ih (wheelSwitch i s) k (wheelSwitch_whiteCountOk i s h) hev
      have := cyclesBeforeEvent_step i s h
      omega

theorem wheelEvents_debounced (is : List LoopInput) (s : State) (j k : Nat)
    (h : whiteCountOk s) (hjk : j < k)
    (hmark : (is.map (fun i => isMirror i.analog)).getD j false = true)
    (hev : (wheelEvents s is).getD k false = true) : j + 21 < k := by
  induction is generalizing s j k with
  | nil => simp [wheelEvents] at hev
  | cons i rest ih =>
    cases k with
    | zero => omega
    | succ k =>
      rw [wheelEvents, List.getD_cons_succ] at hev
      cases j with
      | zero =>
        rw [List.map_cons, List.getD_cons_zero] at hmark
        obtain ⟨a, b⟩ := wheelSwitch_after_mark i s h hmark
        have := wheelEvents_not_before rest (wheelSwitch i s) k
          (wheelSwitch_whiteCountOk i s h) hev
        simp [cyclesBeforeEvent, a, b] at this
        omega
      | succ j =>
        rw [List.map_cons, List.getD_cons_succ] at hmark
        have := ih (wheelSwitch i s) j k (wheelSwitch_whiteCountOk i s h) (by omega) hmark hev
        omega

/-! ## C1: round trip of the night-stats persistence -/

/-- C1. Round trip of night-stats persistence: for every well-formed live
record `s.nightStats` and every EEPROM content `s.eeprom`, after
`saveNightStatsToEEPROM`, any sequence `ops` of `saveTimeOfLastResetToEEPROM`,
`initResetLog` and `initDebugMsgLog`, and a reset that leaves an arbitrary
live state `r` over the surviving EEPROM, `loadNightStatsFromEEPROM` yields a
live record equal to the saved one in all three members. -/
theorem nightStats_save_load_roundtrip (s r : State) (ops : List MidOp)
    (hwf : s.nightStats.wf)
    (hreset : r.eeprom
      = (ops.foldl (fun acc op => op.run acc) (saveNightStatsToEEPROM s)).eeprom) :
    (loadNightStatsFromEEPROM r).nightStats = s.nightStats ∧
    (loadNightStatsFromEEPROM r).nightStats.totalDistanceInCm
      = s.nightStats.totalDistanceInCm ∧
    (loadNightStatsFromEEPROM r).nightStats.dateTimeOfFirstRotationInDateTime
      = s.nightStats.dateTimeOfFirstRotationInDateTime ∧
    (loadNightStatsFromEEPROM r).nightStats.dateTimeOfLastRotationInDateTime
      = s.nightStats.dateTimeOfLastRotationInDateTime := by
  have key : (loadNightStatsFromEEPROM r).nightStats = s.nightStats := by
    rw [loadNightStats_nightStats]
    apply durableNightStats_of_region _ _ hwf
    intro k hk
    rw [hreset, MidOp.runAll_other _ _ _ (by simp only [EEPROMaddrForNightStats]; omega)]
    exact saveNightStats_region s k hk
  rw [key]
  exact ⟨rfl, rfl, rfl, rfl⟩

/-- Witness of C1: the sample record is saved over an EEPROM of sevens, all
three other operations run, and the load after the reset returns it. -/
theorem nightStats_save_load_roundtrip_witness :
    (loadNightStatsFromEEPROM sampleAfterReset).nightStats = sampleStats :=
  (nightStats_save_load_roundtrip { sampleBoot with nightStats := sampleStats }
    sampleAfterReset sampleOps (by decide) rfl).1

/-! ## C2: cold boot in the night window -/

/-- C2. Night-window cold boot: for every boot clock reading whose hour is in
the night window (hour >= 22 or hour < 7) and every content of the durable
store, after `setup` the live NightStats equals the record stored in the
durable region, `setup` leaves that region unchanged, the capture state is
`CAPTURE_HEDGIE_STATISTICS`, and `readTimeOfLastResetFromEEPROM` returns the
boot time. -/
theorem setup_night_window_recovers (i : SetupInput) (s : State) (fresh : DateTime)
    (hnight : i.dateNow.hour ≥ 22 ∨ i.dateNow.hour < 7) (hwf : i.dateNow.wf) :
    (setup i s).nightStats = durableNightStats s.eeprom ∧
    (∀ k, k < 16 → (setup i s).eeprom (EEPROMaddrForNightStats + k)
        = s.eeprom (EEPROMaddrForNightStats + k)) ∧
    durableNightStats (setup i s).eeprom = durableNightStats s.eeprom ∧
    (setup i s).statisticsCaptureState = CAPTURE_HEDGIE_STATISTICS ∧
    readTimeOfLastResetFromEEPROM fresh (setup i s) = i.dateNow := by
  have hday : ¬ (i.dateNow.hour ≥ 7 ∧ i.dateNow.hour < 22) := by omega
  have hreg : ∀ k, k < 16 → (setup i s).eeprom (EEPROMaddrForNightStats + k)
      = s.eeprom (EEPROMaddrForNightStats + k) := by
    intro k hk
    rw [setup_night_eeprom i s hnight,
      setupEthernet_other _ _ _ (by simp only [EEPROMaddrForNightStats]; omega),
      saveTimeOfLastReset_other _ _ _ (by simp only [EEPROMaddrForNightStats]; omega)]
  have hmark : ∀ k, k < 6 → (setup i s).eeprom (EEPROMaddrForResetLog + k)
      = i.dateNow.byteAt k % 256 := by
    intro k hk
    rw [setup_night_eeprom i s hnight,
      setupEthernet_other _ _ _ (by simp only [EEPROMaddrForResetLog]; omega),
      saveTimeOfLastReset_region _ _ _ hk]
  refine ⟨setup_night_nightStats i s hnight, hreg, durableNightStats_congr _ _ hreg, ?_, ?_⟩
  · cases hd : i.dhcpOk <;>
    simp [setup, hday, hd, setupEthernet, logDebugMsg, saveTimeOfLastResetToEEPROM,
      loadNightStatsFromEEPROM]
  · have e0 : (setup i s).eeprom EEPROMaddrForResetLog = i.dateNow.byteAt 0 % 256 := by
      simpa using hmark 0 (by omega)
    have key : readTimeOfLastResetFromEEPROM fresh (setup i s)
        = DateTime.ofImage (fun k => i.dateNow.byteAt k % 256) := by
      simp [readTimeOfLastResetFromEEPROM, DateTime.ofImage, readBlock_apply, sizeofDateTime,
        EEPROM.read, hmark, e0]
    rw [key, DateTime.ofImage_time_bytes _ hwf]

/-- Witness of C2: a boot at 23:05 over the EEPROM that holds `sampleStats`. -/
theorem setup_night_window_recovers_witness :
    (setup (sampleSetupInput 23 5) sampleAfterReset).nightStats
        = durableNightStats sampleAfterReset.eeprom ∧
    (setup (sampleSetupInput 23 5) sampleAfterReset).statisticsCaptureState
        = CAPTURE_HEDGIE_STATISTICS ∧
    readTimeOfLastResetFromEEPROM (sampleTime 0 0) (setup (sampleSetupInput 23 5) sampleAfterReset)
        = sampleTime 23 5 :=
  have h := setup_night_window_recovers (sampleSetupInput 23 5) sampleAfterReset (sampleTime 0 0)
    (by decide) (by decide)
  ⟨h.1, h.2.2.2.1, h.2.2.2.2⟩

/-! ## C3: cold boot in the day window -/

/-- C3. Day-window cold boot: for every boot clock reading with
7 <= hour < 22 and every content of the durable store, after `setup` the
capture state is `STARTUP_TESTING_DISCARD_HEDGIE_STATISTICS`, the warm-up
counter is 0, the interval accumulator is 0 and the live `totalDistanceInCm`
is 0; replacing the durable store by any other content `e` changes none of
these, nor the live NightStats. -/
theorem setup_day_window_fresh (i : SetupInput) (s : State)
    (hday : i.dateNow.hour ≥ 7 ∧ i.dateNow.hour < 22) :
    (setup i s).statisticsCaptureState = STARTUP_TESTING_DISCARD_HEDGIE_STATISTICS ∧
    (setup i s).startupTestingCount = 0 ∧
    (setup i s).distanceRunIntervalInCm = 0 ∧
    (setup i s).nightStats.totalDistanceInCm = 0 ∧
    ∀ e : EEPROM,
      (setup i { s with eeprom := e }).statisticsCaptureState
          = (setup i s).statisticsCaptureState ∧
      (setup i { s with eeprom := e }).startupTestingCount = (setup i s).startupTestingCount ∧
      (setup i { s with eeprom := e }).distanceRunIntervalInCm
          = (setup i s).distanceRunIntervalInCm ∧
      (setup i { s with eeprom := e }).nightStats = (setup i s).nightStats := by
  obtain ⟨h1, h2, h3, h4, _, _⟩ := setup_day_fields i s hday
  refine ⟨h2, h3, h4, by rw [h1], ?_⟩
  intro e
  obtain ⟨g1, g2, g3, g4, _, _⟩ := setup_day_fields i { s with eeprom := e } hday
  rw [h1, h2, h3, h4, g1, g2, g3, g4]
  exact ⟨rfl, rfl, rfl, rfl⟩

/-- Witness of C3: a boot at 10:30 over the EEPROM that holds `sampleStats`. -/
theorem setup_day_window_fresh_witness :
    (setup (sampleSetupInput 10 30) sampleAfterReset).statisticsCaptureState
        = STARTUP_TESTING_DISCARD_HEDGIE_STATISTICS ∧
    (setup (sampleSetupInput 10 30) sampleAfterReset).startupTestingCount = 0 ∧
    (setup (sampleSetupInput 10 30) sampleAfterReset).distanceRunIntervalInCm = 0 ∧
    (setup (sampleSetupInput 10 30) sampleAfterReset).nightStats.totalDistanceInCm = 0 :=
  have h := setup_day_window_fresh (sampleSetupInput 10 30) sampleAfterReset (by decide)
  ⟨h.1, h.2.1, h.2.2.1, h.2.2.2.1⟩

/-! ## C4: what a day-window cold boot persists -/

/-- C4, as stated, fails: after a boot at 10:30 (every clock reading equal to
the boot reading) over an EEPROM that holds `sampleStats`, the live NightStats
is the fresh record, the durable region still holds `sampleStats`, and the two
differ. -/
theorem setup_day_window_not_persisted :
    7 ≤ (sampleSetupInput 10 30).dateNow.hour ∧ (sampleSetupInput 10 30).dateNow.hour < 22 ∧
    (setup (sampleSetupInput 10 30) sampleAfterReset).nightStats
        = ⟨0, sampleTime 10 30, sampleTime 10 30⟩ ∧
    durableNightStats (setup (sampleSetupInput 10 30) sampleAfterReset).eeprom = sampleStats ∧
    durableNightStats (setup (sampleSetupInput 10 30) sampleAfterReset).eeprom
        ≠ (setup (sampleSetupInput 10 30) sampleAfterReset).nightStats := by
  decide

/-- C4, amended. Day-window cold boot: for every boot clock reading with
7 <= hour < 22, after `setup` the live NightStats is freshly reset
(totalDistance 0, first and last rotation time the two clock readings taken
by `initNightStats`), while the durable NightStats region is left unchanged
and still holds the record stored before the boot. -/
theorem setup_day_window_keeps_durable (i : SetupInput) (s : State)
    (hday : i.dateNow.hour ≥ 7 ∧ i.dateNow.hour < 22) :
    (setup i s).nightStats = ⟨0, i.rtcFirst, i.rtcLast⟩ ∧
    (∀ k, k < 16 → (setup i s).eeprom (EEPROMaddrForNightStats + k)
        = s.eeprom (EEPROMaddrForNightStats + k)) ∧
    durableNightStats (setup i s).eeprom = durableNightStats s.eeprom := by
  obtain ⟨h1, _, _, _, _, h6⟩ := setup_day_fields i s hday
  have hreg : ∀ k, k < 16 → (setup i s).eeprom (EEPROMaddrForNightStats + k)
      = s.eeprom (EEPROMaddrForNightStats + k) := by
    intro k hk
    rw [h6, setupEthernet_other _ _ _ (by simp only [EEPROMaddrForNightStats]; omega)]
  exact ⟨h1, hreg, durableNightStats_congr _ _ hreg⟩

/-- Witness of the amended C4: a boot at 10:30 over the EEPROM that holds
`sampleStats`. -/
theorem setup_day_window_keeps_durable_witness :
    (setup (sampleSetupInput 10 30) sampleAfterReset).nightStats
        = ⟨0, sampleTime 10 30, sampleTime 10 30⟩ ∧
    durableNightStats (setup (sampleSetupInput 10 30) sampleAfterReset).eeprom
        = durableNightStats sampleAfterReset.eeprom :=
  have h := setup_day_window_keeps_durable (sampleSetupInput 10 30) sampleAfterReset (by decide)
  ⟨h.1, h.2.2⟩

/-! ## C5: warm-up, then counting -/

/-- C5, as stated, fails for large N: after 50529038 rotation events in the
night window from the fresh session `sampleFresh`, the 32 bit
`totalDistanceInCm` has wrapped to 84, which is not 85 * (50529038 - 10). -/
theorem warmup_count_wraps :
    sampleFresh.statisticsCaptureState = STARTUP_TESTING_DISCARD_HEDGIE_STATISTICS ∧
    sampleFresh.startupTestingCount = 0 ∧
    sampleFresh.nightStats.totalDistanceInCm = 0 ∧
    isMirror (sampleCycle 23 5 512).analog = true ∧
    (sampleCycle 23 5 512).dateNow.hour ≥ 22 ∧
    (rotationRun sampleFresh
      (List.replicate 50529038 (sampleCycle 23 5 512))).nightStats.totalDistanceInCm = 84 ∧
    (rotationRun sampleFresh
      (List.replicate 50529038 (sampleCycle 23 5 512))).nightStats.totalDistanceInCm
        ≠ 85 * (50529038 - 10) := by
  have inv0 : warmupInv 0 sampleFresh :=
    ⟨fun _ => ⟨by decide, by decide, by decide⟩, fun h => absurd h (by decide)⟩
  have hall : ∀ i ∈ List.replicate 50529038 (sampleCycle 23 5 512),
      isMirror i.analog = true ∧ (i.dateNow.hour ≥ 22 ∨ i.dateNow.hour < 7) := by
    intro i hi
    rw [List.eq_of_mem_replicate hi]
    decide
  have h := (rotationRun_warmupInv _ 0 sampleFresh hall inv0).2
  rw [List.length_replicate] at h
  have h2 := (h (by norm_num)).2
  have h3 : (rotationRun sampleFresh
      (List.replicate 50529038 (sampleCycle 23 5 512))).nightStats.totalDistanceInCm = 84 := by
    rw [h2]
  refine ⟨by decide, by decide, by decide, by decide, by decide, h3, ?_⟩
  rw [h3]
  norm_num

/-- C5, amended. Warm-up then counting: starting from a fresh session (capture
state WARMUP, warm-up counter 0, `totalDistanceInCm` 0), for every N, after N
rotation events (calls of `detectMirror` that see a mark) all with the clock
in the night window, the capture state is ACTIVE if and only if N >= 10, and
`totalDistanceInCm` equals 85 * max(0, N - 10) reduced modulo 2^32; it equals
85 * max(0, N - 10) itself for every N <= 50529037. -/
theorem warmup_then_counting (s : State) (is : List LoopInput)
    (hstate : s.statisticsCaptureState = STARTUP_TESTING_DISCARD_HEDGIE_STATISTICS)
    (hcount : s.startupTestingCount = 0)
    (htotal : s.nightStats.totalDistanceInCm = 0)
    (hall : ∀ i ∈ is, isMirror i.analog = true ∧ (i.dateNow.hour ≥ 22 ∨ i.dateNow.hour < 7)) :
    ((rotationRun s is).statisticsCaptureState = CAPTURE_HEDGIE_STATISTICS ↔ 10 ≤ is.length) ∧
    (rotationRun s is).nightStats.totalDistanceInCm
      = WHEEL_CIRCUMFERENCE_IN_CM * (is.length - STARTUP_COUNT_THRESHOLD) % 4294967296 ∧
    (is.length ≤ 50529037 → (rotationRun s is).nightStats.totalDistanceInCm
      = WHEEL_CIRCUMFERENCE_IN_CM * (is.length - STARTUP_COUNT_THRESHOLD)) := by
  have inv0 : warmupInv 0 s :=
    ⟨fun _ => ⟨hstate, hcount, htotal⟩, fun h => absurd h (by decide)⟩
  have h := rotationRun_warmupInv is 0 s hall inv0
  rw [Nat.zero_add] at h
  obtain ⟨hlo, hhi⟩ := h
  have htot : (rotationRun s is).nightStats.totalDistanceInCm
      = WHEEL_CIRCUMFERENCE_IN_CM * (is.length - STARTUP_COUNT_THRESHOLD) % 4294967296 := by
    simp only [WHEEL_CIRCUMFERENCE_IN_CM, STARTUP_COUNT_THRESHOLD]
    by_cases hn : is.length < 10
    · rw [(hlo hn).2.2]
      omega
    · exact (hhi (by omega)).2
  refine ⟨?_, htot, ?_⟩
  · constructor
    · intro hc
      by_contra hn
      rw [(hlo (by omega)).1] at hc
      exact absurd hc (by decide)
    · intro hn
      exact (hhi hn).1
  · intro hsmall
    rw [htot]
    simp only [WHEEL_CIRCUMFERENCE_IN_CM, STARTUP_COUNT_THRESHOLD]
    omega

/-- Witness of the amended C5: eleven rotation events at 23:05 from the fresh
session `sampleFresh` leave the gate capturing and one rotation counted. -/
theorem warmup_then_counting_witness :
    (rotationRun sampleFresh
      (List.replicate 11 (sampleCycle 23 5 512))).statisticsCaptureState
        = CAPTURE_HEDGIE_STATISTICS ∧
    (rotationRun sampleFresh
      (List.replicate 11 (sampleCycle 23 5 512))).nightStats.totalDistanceInCm = 85 :=
  have h := warmup_then_counting sampleFresh (List.replicate 11 (sampleCycle 23 5 512))
    (by decide) (by decide) (by decide) (by decide)
  ⟨h.1.2 (by decide), h.2.2 (by decide)⟩

/-! ## C6: daytime rotations never count -/

/-- C6. Daytime rotations never count: for every state and every clock
reading with 7 <= hour < 22, a rotation event handled by `detectMirror`
changes only the wheel state, which becomes `WAITING_FOR_WHITE`; the live
NightStats, the interval accumulator, the capture state and the warm-up
counter are unchanged. -/
theorem detectMirror_daytime_ignored (dateNow now : DateTime) (analog : Nat) (s : State)
    (hday : 7 ≤ dateNow.hour ∧ dateNow.hour < 22) (hm : isMirror analog = true) :
    detectMirror dateNow analog now s = { s with wheelState := WAITING_FOR_WHITE } ∧
    (detectMirror dateNow analog now s).nightStats = s.nightStats ∧
    (detectMirror dateNow analog now s).distanceRunIntervalInCm = s.distanceRunIntervalInCm ∧
    (detectMirror dateNow analog now s).statisticsCaptureState = s.statisticsCaptureState ∧
    (detectMirror dateNow analog now s).startupTestingCount = s.startupTestingCount ∧
    (detectMirror dateNow analog now s).wheelState = WAITING_FOR_WHITE := by
  have hnight : ¬ (dateNow.hour ≥ 22 ∨ dateNow.hour < 7) := by omega
  have key : detectMirror dateNow analog now s = { s with wheelState := WAITING_FOR_WHITE } := by
    simp [detectMirror, hm, hnight]
  rw [key]
  exact ⟨rfl, rfl, rfl, rfl, rfl, rfl⟩

/-- Witness of C6: a rotation at 10:15 in the capturing state `sampleDay`. -/
theorem detectMirror_daytime_ignored_witness :
    detectMirror (sampleTime 10 15) 512 (sampleTime 10 15) sampleDay
      = { sampleDay with wheelState := WAITING_FOR_WHITE } :=
  (detectMirror_daytime_ignored (sampleTime 10 15) (sampleTime 10 15) 512 sampleDay
    (by decide) (by decide)).1

/-! ## C7: debounce of the rotation detector -/

set_option maxRecDepth 100000

/-- Debounce from power-up: when the wheel switch starts at
`DETERMINE_MIRROR_LOCATION` with `whiteSampleCount = 0` and no session start
intervenes, the calibration cycle detects no rotation, and a rotation detected
in cycle `k` is preceded by at least 21 white samples since the last mirror
sample `j`. -/
theorem wheelEvents_debounced_from_calibration (is : List LoopInput) (s : State)
    (hstart : s.wheelState = DETERMINE_MIRROR_LOCATION) (hcount : s.whiteSampleCount = 0) :
    (wheelEvents s is).getD 0 false = false ∧
    ∀ j k, j < k → (is.map (fun i => isMirror i.analog)).getD j false = true →
      (wheelEvents s is).getD k false = true → j + 21 < k := by
  constructor
  · cases is with
    | nil => rfl
    | cons i rest => simp [wheelEvents, rotationEvent, hstart]
  · intro j k hjk hmark hev
    refine wheelEvents_debounced is s j k ⟨fun _ => hcount, ?_, ?_⟩ hjk hmark hev
    · rw [hcount]
    · rw [hcount]; decide

/-- C7 fails on the code after a 10pm session start. On the evening
`sampleDusk`, run by `loop` from the boot state `sampleFresh`: the cycle of
the 10pm block leaves the wheel state at `DETERMINE_MIRROR_LOCATION` with the
stale `whiteSampleCount = 20`; the sensor then reads white, mirror, white,
mirror, and both mirror samples are detected as rotations (cycles 22 and 24,
both counted by the warm-up counter) although a single white sample separates
them. -/
theorem debounce_lost_after_session_start :
    (runLoop sampleFresh (sampleDusk.take 21)).wheelState = DETERMINE_MIRROR_LOCATION ∧
    (runLoop sampleFresh (sampleDusk.take 21)).whiteSampleCount = 20 ∧
    (sampleDusk.drop 21).map (fun i => isMirror i.analog) = [false, true, false, true] ∧
    loopEvents sampleFresh sampleDusk = List.replicate 22 false ++ [true, false, true] ∧
    (runLoop sampleFresh sampleDusk).startupTestingCount = 2 := by
  decide

/-! ## C8: an invalid clock reading and the periodic actions -/

/-- C8 fails on the code. In the cycle `sampleBogusTick` (clock reading
153:165, never-assigned local `newMinute` holding `true`) taken in the state
`sampleNight`, `prevHour` and `prevMinute` are unchanged, but the telemetry
tick and the interval report both fire: four reports are sent, the interval
accumulator is reset from 170 to 0 and the durable NightStats region is
overwritten with the live record. -/
theorem invalid_hour_interval_report_fires :
    sampleBogusTick.dateNow.wf ∧
    isValidHour sampleBogusTick.dateNow = false ∧
    (loop sampleBogusTick sampleNight).prevHour = sampleNight.prevHour ∧
    (loop sampleBogusTick sampleNight).prevMinute = sampleNight.prevMinute ∧
    (loop sampleBogusTick sampleNight).reports
      = [Report.temperature, Report.uptime 330, Report.distance 106,
         Report.sparkFun (sampleTime 153 165) 170] ∧
    sampleNight.distanceRunIntervalInCm = 170 ∧
    (loop sampleBogusTick sampleNight).distanceRunIntervalInCm = 0 ∧
    durableNightStats sampleNight.eeprom = sampleStats ∧
    durableNightStats (loop sampleBogusTick sampleNight).eeprom = sampleNight.nightStats ∧
    sampleNight.nightStats ≠ sampleStats := by
  decide

/-! ## C9: an invalid clock reading and the statistics -/

/-- C9 fails on the code. In the cycle `sampleBogusRotation` (clock reading
153:165, mirror seen) taken in the day-time state `sampleDay`, whose wheel
state is `WAITING_FOR_MIRROR` and whose capture state is
`CAPTURE_HEDGIE_STATISTICS`, the rotation is counted: `totalDistanceInCm`
grows from 10625 to 10710, the last rotation time becomes 10:15 and the
interval accumulator grows from 0 to 85. -/
theorem invalid_hour_rotation_counted :
    sampleBogusRotation.dateNow.wf ∧
    isValidHour sampleBogusRotation.dateNow = false ∧
    rotationEvent sampleBogusRotation sampleDay = true ∧
    sampleDay.nightStats.totalDistanceInCm = 10625 ∧
    (loop sampleBogusRotation sampleDay).nightStats.totalDistanceInCm = 10710 ∧
    sampleDay.nightStats.dateTimeOfLastRotationInDateTime = sampleTime 4 41 ∧
    (loop sampleBogusRotation sampleDay).nightStats.dateTimeOfLastRotationInDateTime
      = sampleTime 10 15 ∧
    sampleDay.distanceRunIntervalInCm = 0 ∧
    (loop sampleBogusRotation sampleDay).distanceRunIntervalInCm = 85 := by
  decide

/-! ## C10: the manual reload -/

/-- C10. Manual reload is gated by the day window: when the button is pressed,
`handleButtonPress` replaces the live NightStats by the record stored in the
durable region if 7 <= hour < 22 and leaves the live NightStats unchanged for
every other hour; in both cases the EEPROM (so the durable NightStats region),
the capture state, the warm-up counter and the interval accumulator are
unchanged. -/
theorem handleButtonPress_reload_gated (dateNow : DateTime) (s : State) :
    (handleButtonPress dateNow true s).nightStats
      = (if 7 ≤ dateNow.hour ∧ dateNow.hour < 22 then durableNightStats s.eeprom
         else s.nightStats) ∧
    (handleButtonPress dateNow true s).eeprom = s.eeprom ∧
    durableNightStats (handleButtonPress dateNow true s).eeprom = durableNightStats s.eeprom ∧
    (handleButtonPress dateNow true s).statisticsCaptureState = s.statisticsCaptureState ∧
    (handleButtonPress dateNow true s).startupTestingCount = s.startupTestingCount ∧
    (handleButtonPress dateNow true s).distanceRunIntervalInCm = s.distanceRunIntervalInCm := by
  by_cases h : 7 ≤ dateNow.hour ∧ dateNow.hour < 22
  · have e : handleButtonPress dateNow true s = loadNightStatsFromEEPROM s := by
      simp [handleButtonPress, h]
    rw [e, if_pos h, loadNightStats_nightStats]
    exact ⟨rfl, rfl, rfl, rfl, rfl, rfl⟩
  · have e : handleButtonPress dateNow true s = s := by
      simp only [handleButtonPress, if_true]
      rw [if_neg]
      intro hc
      exact h ⟨hc.1, hc.2⟩
    rw [e, if_neg h]
    exact ⟨rfl, rfl, rfl, rfl, rfl, rfl⟩

/-! ## Auxiliary facts about one cycle of `loop` -/

theorem loop_eq_tail_head (i : LoopInput) (s : State) :
    loop i s = loopTail i (observeClock i s).1 (observeClock i s).2.1 (loopHead i s) := rfl

theorem logDebugMsg_nightStats (a b : Nat) (s : State) :
    (logDebugMsg a b s).nightStats = s.nightStats := rfl

theorem logDebugMsg_captureState (a b : Nat) (s : State) :
    (logDebugMsg a b s).statisticsCaptureState = s.statisticsCaptureState := rfl

theorem logDebugMsg_startupCount (a b : Nat) (s : State) :
    (logDebugMsg a b s).startupTestingCount = s.startupTestingCount := rfl

theorem logDebugMsg_interval (a b : Nat) (s : State) :
    (logDebugMsg a b s).distanceRunIntervalInCm = s.distanceRunIntervalInCm := rfl

theorem logDebugMsg_wheelState (a b : Nat) (s : State) :
    (logDebugMsg a b s).wheelState = s.wheelState := rfl

theorem logDebugMsg_prevHour (a b : Nat) (s : State) :
    (logDebugMsg a b s).prevHour = s.prevHour := rfl

theorem logDebugMsg_prevMinute (a b : Nat) (s : State) :
    (logDebugMsg a b s).prevMinute = s.prevMinute := rfl

theorem tweetNightStats_keeps (c d : Bool) (s : State) :
    (tweetNightStats c d s).nightStats = s.nightStats ∧
    (tweetNightStats c d s).statisticsCaptureState = s.statisticsCaptureState ∧
    (tweetNightStats c d s).startupTestingCount = s.startupTestingCount ∧
    (tweetNightStats c d s).distanceRunIntervalInCm = s.distanceRunIntervalInCm ∧
    (tweetNightStats c d s).wheelState = s.wheelState ∧
    (tweetNightStats c d s).prevHour = s.prevHour ∧
    (tweetNightStats c d s).prevMinute = s.prevMinute := by
  cases c <;> cases d <;>
    simp [tweetNightStats, updateTwitterStatus, constructTwitterMsg, logDebugMsg_nightStats,
      logDebugMsg_captureState, logDebugMsg_startupCount, logDebugMsg_interval,
      logDebugMsg_wheelState, logDebugMsg_prevHour, logDebugMsg_prevMinute]

theorem morningTweet_keeps (i : LoopInput) (nh : Bool) (s : State) :
    (morningTweet i nh s).nightStats = s.nightStats ∧
    (morningTweet i nh s).statisticsCaptureState = s.statisticsCaptureState ∧
    (morningTweet i nh s).startupTestingCount = s.startupTestingCount ∧
    (morningTweet i nh s).distanceRunIntervalInCm = s.distanceRunIntervalInCm ∧
    (morningTweet i nh s).wheelState = s.wheelState ∧
    (morningTweet i nh s).prevHour = s.prevHour ∧
    (morningTweet i nh s).prevMinute = s.prevMinute := by
  unfold morningTweet
  split
  · exact tweetNightStats_keeps _ _ s
  · exact ⟨rfl, rfl, rfl, rfl, rfl, rfl, rfl⟩

theorem telemetryTick_keeps (i : LoopInput) (nm : Bool) (s : State) :
    (telemetryTick i nm s).nightStats = s.nightStats ∧
    (telemetryTick i nm s).statisticsCaptureState = s.statisticsCaptureState ∧
    (telemetryTick i nm s).startupTestingCount = s.startupTestingCount ∧
    (telemetryTick i nm s).distanceRunIntervalInCm = s.distanceRunIntervalInCm ∧
    (telemetryTick i nm s).wheelState = s.wheelState ∧
    (telemetryTick i nm s).prevHour = s.prevHour ∧
    (telemetryTick i nm s).prevMinute = s.prevMinute ∧
    (telemetryTick i nm s).eeprom = s.eeprom := by
  unfold telemetryTick
  split <;> exact ⟨rfl, rfl, rfl, rfl, rfl, rfl, rfl, rfl⟩

theorem foldl_keep (l : List Nat) (s : State) :
    l.foldl (fun acc _ => acc) s = s := by
  induction l with
  | nil => rfl
  | cons a rest ih => exact ih

theorem sendDataToSparkFun_eq (t : DateTime) (d : Nat) (c : Bool) (p : Nat) (s : State) :
    sendDataToSparkFun t d c p s
      = { s with reports := s.reports ++ (if c = true then [Report.sparkFun t d] else []) } := by
  unfold sendDataToSparkFun
  simp only [foldl_keep]
  cases c
  · simp
  · simp

theorem intervalReport_eq (i : LoopInput) (nh nm : Bool) (s : State) :
    intervalReport i nh nm s
      = if intervalReportDue i nh nm = true then
          { s with
              reports := (s.reports ++
                [Report.distance (convertCmsToM s.nightStats.totalDistanceInCm)]) ++
                (if i.sparkFunConnect = true then
                  [Report.sparkFun i.dateNow s.distanceRunIntervalInCm] else []),
              eeprom := (saveNightStatsToEEPROM s).eeprom,
              distanceRunIntervalInCm := 0 }
        else if (nm && decide (i.dateNow.minute % 5 = 0)) = true then
          { s with reports := s.reports ++ [Report.distance 0] }
        else s := by
  unfold intervalReport
  split
  · simp only [sendDataToSparkFun_eq]
    rfl
  · rfl

theorem intervalReport_keeps (i : LoopInput) (nh nm : Bool) (s : State) :
    (intervalReport i nh nm s).nightStats = s.nightStats ∧
    (intervalReport i nh nm s).statisticsCaptureState = s.statisticsCaptureState ∧
    (intervalReport i nh nm s).startupTestingCount = s.startupTestingCount ∧
    (intervalReport i nh nm s).wheelState = s.wheelState ∧
    (intervalReport i nh nm s).prevHour = s.prevHour ∧
    (intervalReport i nh nm s).prevMinute = s.prevMinute := by
  rw [intervalReport_eq]
  split
  · exact ⟨rfl, rfl, rfl, rfl, rfl, rfl⟩
  · split <;> exact ⟨rfl, rfl, rfl, rfl, rfl, rfl⟩

theorem handleButtonPress_keeps (t : DateTime) (b : Bool) (s : State) :
    (handleButtonPress t b s).statisticsCaptureState = s.statisticsCaptureState ∧
    (handleButtonPress t b s).startupTestingCount = s.startupTestingCount ∧
    (handleButtonPress t b s).distanceRunIntervalInCm = s.distanceRunIntervalInCm ∧
    (handleButtonPress t b s).wheelState = s.wheelState ∧
    (handleButtonPress t b s).prevHour = s.prevHour ∧
    (handleButtonPress t b s).prevMinute = s.prevMinute ∧
    (handleButtonPress t b s).eeprom = s.eeprom := by
  unfold handleButtonPress
  split
  · split <;> exact ⟨rfl, rfl, rfl, rfl, rfl, rfl, rfl⟩
  · exact ⟨rfl, rfl, rfl, rfl, rfl, rfl, rfl⟩

theorem updateRtcUsingNTP_keeps (d p : Bool) (s : State) :
    (updateRtcUsingNTP d p s).nightStats = s.nightStats ∧
    (updateRtcUsingNTP d p s).statisticsCaptureState = s.statisticsCaptureState ∧
    (updateRtcUsingNTP d p s).startupTestingCount = s.startupTestingCount ∧
    (updateRtcUsingNTP d p s).distanceRunIntervalInCm = s.distanceRunIntervalInCm ∧
    (updateRtcUsingNTP d p s).wheelState = s.wheelState ∧
    (updateRtcUsingNTP d p s).prevHour = s.prevHour ∧
    (updateRtcUsingNTP d p s).prevMinute = s.prevMinute := by
  cases d <;> cases p <;>
    simp [updateRtcUsingNTP, getNTP, sendNTPpacket, logDebugMsg_nightStats,
      logDebugMsg_captureState, logDebugMsg_startupCount, logDebugMsg_interval,
      logDebugMsg_wheelState, logDebugMsg_prevHour, logDebugMsg_prevMinute]

theorem loopTail_keeps (i : LoopInput) (nh nm : Bool) (s : State) :
    (loopTail i nh nm s).statisticsCaptureState = s.statisticsCaptureState ∧
    (loopTail i nh nm s).startupTestingCount = s.startupTestingCount ∧
    (loopTail i nh nm s).wheelState = s.wheelState ∧
    (loopTail i nh nm s).prevHour = s.prevHour ∧
    (loopTail i nh nm s).prevMinute = s.prevMinute := by
  obtain ⟨_, a2, a3, _, a5, a6, a7⟩ := morningTweet_keeps i nh s
  obtain ⟨_, b2, b3, _, b5, b6, b7, _⟩ := telemetryTick_keeps i nm (morningTweet i nh s)
  obtain ⟨_, c2, c3, c5, c6, c7⟩ :=
    intervalReport_keeps i nh nm (telemetryTick i nm (morningTweet i nh s))
  obtain ⟨d2, d3, _, d5, d6, d7, _⟩ := handleButtonPress_keeps i.dateNow i.button
    (intervalReport i nh nm (telemetryTick i nm (morningTweet i nh s)))
  obtain ⟨_, e2, e3, _, e5, e6, e7⟩ := updateRtcUsingNTP_keeps i.dnsOk i.ntpPacket
    (handleButtonPress i.dateNow i.button
      (intervalReport i nh nm (telemetryTick i nm (morningTweet i nh s))))
  unfold loopTail
  simp only []
  split
  · rw [e2, e3, e5, e6, e7, d2, d3, d5, d6, d7, c2, c3, c5, c6, c7, b2, b3, b5, b6, b7,
      a2, a3, a5, a6, a7]
    exact ⟨rfl, rfl, rfl, rfl, rfl⟩
  · rw [d2, d3, d5, d6, d7, c2, c3, c5, c6, c7, b2, b3, b5, b6, b7, a2, a3, a5, a6, a7]
    exact ⟨rfl, rfl, rfl, rfl, rfl⟩


theorem observeClock_keeps (i : LoopInput) (s : State) :
    (observeClock i s).2.2.nightStats = s.nightStats ∧
    (observeClock i s).2.2.statisticsCaptureState = s.statisticsCaptureState ∧
    (observeClock i s).2.2.startupTestingCount = s.startupTestingCount ∧
    (observeClock i s).2.2.distanceRunIntervalInCm = s.distanceRunIntervalInCm ∧
    (observeClock i s).2.2.wheelState = s.wheelState ∧
    (observeClock i s).2.2.whiteSampleCount = s.whiteSampleCount ∧
    (observeClock i s).2.2.eeprom = s.eeprom := by
  unfold observeClock isNewHour isNewMinute
  split
  · simp only []
    split <;> split <;> exact ⟨rfl, rfl, rfl, rfl, rfl, rfl, rfl⟩
  · exact ⟨rfl, rfl, rfl, rfl, rfl, rfl, rfl⟩

theorem observeClock_valid (i : LoopInput) (s : State) (hvalid : i.dateNow.hour ≤ 23) :
    ((observeClock i s).1 = true ↔ i.dateNow.hour ≠ s.prevHour) ∧
    ((observeClock i s).2.1 = true ↔ i.dateNow.minute ≠ s.prevMinute) ∧
    (observeClock i s).2.2.prevHour = i.dateNow.hour ∧
    (observeClock i s).2.2.prevMinute = i.dateNow.minute := by
  have hv : isValidHour i.dateNow = true := by simp [isValidHour, hvalid]
  unfold observeClock isNewHour isNewMinute
  rw [if_pos hv]
  by_cases h1 : s.prevHour = i.dateNow.hour <;> by_cases h2 : s.prevMinute = i.dateNow.minute <;>
    simp [h1, h2, eq_comm]

theorem detectMirror_keeps (dateNow now : DateTime) (analog : Nat) (s : State) :
    (detectMirror dateNow analog now s).prevHour = s.prevHour ∧
    (detectMirror dateNow analog now s).prevMinute = s.prevMinute ∧
    (detectMirror dateNow analog now s).eeprom = s.eeprom ∧
    (detectMirror dateNow analog now s).reports = s.reports := by
  unfold detectMirror
  split
  · split
    · split
      · simp only []
        split <;> exact ⟨rfl, rfl, rfl, rfl⟩
      · exact ⟨rfl, rfl, rfl, rfl⟩
    · exact ⟨rfl, rfl, rfl, rfl⟩
  · exact ⟨rfl, rfl, rfl, rfl⟩

theorem detectWhite_keeps (analog : Nat) (s : State) :
    (detectWhite analog s).prevHour = s.prevHour ∧
    (detectWhite analog s).prevMinute = s.prevMinute ∧
    (detectWhite analog s).eeprom = s.eeprom ∧
    (detectWhite analog s).reports = s.reports ∧
    (detectWhite analog s).nightStats = s.nightStats ∧
    (detectWhite analog s).statisticsCaptureState = s.statisticsCaptureState ∧
    (detectWhite analog s).startupTestingCount = s.startupTestingCount ∧
    (detectWhite analog s).distanceRunIntervalInCm = s.distanceRunIntervalInCm := by
  unfold detectWhite
  cases isMirror analog
  · by_cases hc : s.whiteSampleCount + 1 > 20
    · simp [hc]
    · simp [hc]
  · simp

theorem wheelSwitch_keeps (i : LoopInput) (s : State) :
    (wheelSwitch i s).prevHour = s.prevHour ∧
    (wheelSwitch i s).prevMinute = s.prevMinute ∧
    (wheelSwitch i s).eeprom = s.eeprom ∧
    (wheelSwitch i s).reports = s.reports := by
  unfold wheelSwitch
  split
  · split <;> exact ⟨rfl, rfl, rfl, rfl⟩
  · exact detectMirror_keeps _ _ _ s
  · exact ⟨(detectWhite_keeps _ s).1, (detectWhite_keeps _ s).2.1, (detectWhite_keeps _ s).2.2.1,
      (detectWhite_keeps _ s).2.2.2.1⟩

theorem detectMirror_gateInv (dateNow now : DateTime) (analog : Nat) (s : State)
    (h : gateInv s) : gateInv (detectMirror dateNow analog now s) := by
  obtain ⟨h1, h2⟩ := h
  simp only [STARTUP_COUNT_THRESHOLD] at h1 h2
  unfold detectMirror
  split
  · split
    · split
      next hc =>
        have hlt : s.startupTestingCount < 10 := h1.mp hc
        have hm : (s.startupTestingCount + 1) % 65536 = s.startupTestingCount + 1 :=
          Nat.mod_eq_of_lt (by omega)
        simp only [hm, STARTUP_COUNT_THRESHOLD]
        split
        next hge =>
          simp only [gateInv, STARTUP_COUNT_THRESHOLD]
          constructor
          · constructor
            · intro hcontra
              exact absurd hcontra (by decide)
            · intro hcontra
              omega
          · omega
        next hlt2 =>
          simp only [gateInv, STARTUP_COUNT_THRESHOLD, hc]
          constructor
          · constructor
            · intro _
              omega
            · intro _
              trivial
          · omega
      next hc =>
        simp only [gateInv, STARTUP_COUNT_THRESHOLD]
        exact ⟨h1, h2⟩
    · simp only [gateInv, STARTUP_COUNT_THRESHOLD]
      exact ⟨h1, h2⟩
  · simp only [gateInv, STARTUP_COUNT_THRESHOLD]
    exact ⟨h1, h2⟩

theorem wheelSwitch_gateInv (i : LoopInput) (s : State) (h : gateInv s) :
    gateInv (wheelSwitch i s) := by
  unfold wheelSwitch
  split
  · split <;> exact h
  · exact detectMirror_gateInv _ _ _ s h
  · obtain ⟨_, _, _, _, _, a, b, _⟩ := detectWhite_keeps i.analog s
    unfold gateInv
    rw [a, b]
    exact h

theorem sessionStart_gateInv (i : LoopInput) (nh : Bool) (s : State) (h : gateInv s) :
    gateInv (sessionStart i nh s) := by
  unfold sessionStart
  split
  · simp [gateInv, STARTUP_COUNT_THRESHOLD]
  · exact h

theorem sessionStart_keeps (i : LoopInput) (nh : Bool) (s : State) :
    (sessionStart i nh s).prevHour = s.prevHour ∧
    (sessionStart i nh s).prevMinute = s.prevMinute := by
  unfold sessionStart
  split <;> exact ⟨rfl, rfl⟩

theorem loop_gateInv (i : LoopInput) (s : State) (h : gateInv s) : gateInv (loop i s) := by
  rw [loop_eq_tail_head]
  obtain ⟨a, b, _⟩ := loopTail_keeps i (observeClock i s).1 (observeClock i s).2.1 (loopHead i s)
  unfold gateInv
  rw [a, b]
  have h0 : gateInv (observeClock i s).2.2 := by
    obtain ⟨_, c, d, _⟩ := observeClock_keeps i s
    unfold gateInv
    rw [c, d]
    exact h
  exact sessionStart_gateInv i _ _ (wheelSwitch_gateInv i _ h0)

theorem setup_gateInv (i : SetupInput) (s : State) : gateInv (setup i s) := by
  by_cases hday : i.dateNow.hour ≥ 7 ∧ i.dateNow.hour < 22
  · cases hd : i.dhcpOk <;>
    simp [gateInv, setup, hday, hd, setupEthernet, logDebugMsg, initNightStats,
      STARTUP_COUNT_THRESHOLD]
  · cases hd : i.dhcpOk <;>
    simp [gateInv, setup, hday, hd, setupEthernet, logDebugMsg, saveTimeOfLastResetToEEPROM,
      loadNightStatsFromEEPROM, STARTUP_COUNT_THRESHOLD]

theorem runLoop_gateInv (is : List LoopInput) (s : State) (h : gateInv s) :
    gateInv (runLoop s is) := by
  induction is generalizing s with
  | nil => exact h
  | cons i rest ih => exact ih (loop i s) (loop_gateInv i s h)

theorem loop_prev (i : LoopInput) (s : State) :
    (loop i s).prevHour = (observeClock i s).2.2.prevHour ∧
    (loop i s).prevMinute = (observeClock i s).2.2.prevMinute := by
  rw [loop_eq_tail_head]
  obtain ⟨_, _, _, a, b⟩ := loopTail_keeps i (observeClock i s).1 (observeClock i s).2.1 (loopHead i s)
  rw [a, b]
  unfold loopHead
  obtain ⟨c, d⟩ := sessionStart_keeps i (observeClock i s).1 (wheelSwitch i (observeClock i s).2.2)
  obtain ⟨e, f, _⟩ := wheelSwitch_keeps i (observeClock i s).2.2
  rw [c, d, e, f]
  exact ⟨rfl, rfl⟩

theorem intervalReport_eeprom (i : LoopInput) (nh nm : Bool) (s : State) :
    (intervalReport i nh nm s).eeprom
      = if intervalReportDue i nh nm = true then (saveNightStatsToEEPROM s).eeprom
        else s.eeprom := by
  rw [intervalReport_eq]
  by_cases h : intervalReportDue i nh nm = true
  · rw [if_pos h, if_pos h]
  · rw [if_neg h, if_neg h]
    split <;> rfl

theorem intervalReport_interval (i : LoopInput) (nh nm : Bool) (s : State) :
    (intervalReport i nh nm s).distanceRunIntervalInCm
      = if intervalReportDue i nh nm = true then 0 else s.distanceRunIntervalInCm := by
  rw [intervalReport_eq]
  by_cases h : intervalReportDue i nh nm = true
  · rw [if_pos h, if_pos h]
  · rw [if_neg h, if_neg h]
    split <;> rfl

theorem intervalReportDue_iff (i : LoopInput) (nh nm : Bool) :
    intervalReportDue i nh nm = true ↔
      (i.dateNow.hour ≥ 22 ∨ i.dateNow.hour < 7 ∨ (nh = true ∧ i.dateNow.hour = 7)) ∧
        nm = true ∧ i.dateNow.minute % 5 = 0 := by
  simp [intervalReportDue, or_assoc]

theorem morningTweet_off (i : LoopInput) (nh : Bool) (s : State) (h : i.dateNow.hour ≠ 7) :
    morningTweet i nh s = s := by
  simp [morningTweet, h]

theorem logDebugMsg_eeprom_apply (idx msg : Nat) (s : State) (a : Nat) :
    (logDebugMsg idx msg s).eeprom a = if a = 100 + idx then msg % 256 else s.eeprom a := rfl

theorem updateRtcUsingNTP_other (d p : Bool) (s : State) (a : Nat)
    (h : a < 111 ∨ 123 ≤ a ∨ a = 115) :
    (updateRtcUsingNTP d p s).eeprom a = s.eeprom a := by
  cases d <;> cases p <;>
    simp only [updateRtcUsingNTP, getNTP, sendNTPpacket, logDebugMsg_eeprom_apply,
      ETHERNET_NTP_1, ETHERNET_NTP_2, ETHERNET_NTP_3, ETHERNET_NTP_4, ETHERNET_NTP_6,
      ETHERNET_NTP_7, ETHERNET_NTP_8, ETHERNET_NTP_9, ETHERNET_NTP_10, ETHERNET_NTP_11,
      ETHERNET_NTP_12, if_true, if_false, Bool.false_eq_true] <;>
    repeat (rw [if_neg (by omega)])

theorem loopTail_eeprom_other (i : LoopInput) (nh nm : Bool) (s : State) (a : Nat)
    (hno7 : i.dateNow.hour ≠ 7) (ha : a < 800 ∨ 816 ≤ a)
    (hntp : i.protoshieldButton = false ∨ a < 111 ∨ 123 ≤ a ∨ a = 115) :
    (loopTail i nh nm s).eeprom a = s.eeprom a := by
  have e5 : (intervalReport i nh nm (telemetryTick i nm (morningTweet i nh s))).eeprom a
      = s.eeprom a := by
    rw [intervalReport_eeprom]
    split
    · rw [saveNightStats_other _ _ ha, (telemetryTick_keeps i nm _).2.2.2.2.2.2.2,
        morningTweet_off i nh s hno7]
    · rw [(telemetryTick_keeps i nm _).2.2.2.2.2.2.2, morningTweet_off i nh s hno7]
  unfold loopTail
  simp only []
  split
  next hp =>
    have hn : a < 111 ∨ 123 ≤ a ∨ a = 115 := by
      rcases hntp with h | h
      · rw [h] at hp
        exact absurd hp (by decide)
      · exact h
    rw [updateRtcUsingNTP_other _ _ _ _ hn, (handleButtonPress_keeps _ _ _).2.2.2.2.2.2, e5]
  next hp =>
    rw [(handleButtonPress_keeps _ _ _).2.2.2.2.2.2, e5]

theorem loopTail_eeprom_stats (i : LoopInput) (nh nm : Bool) (s : State) (k : Nat)
    (hno7 : i.dateNow.hour ≠ 7) (hk : k < 16)
    (hs : s.eeprom (EEPROMaddrForNightStats + k) = s.nightStats.byteAt k % 256) :
    (loopTail i nh nm s).eeprom (EEPROMaddrForNightStats + k) = s.nightStats.byteAt k % 256 := by
  have e5 : (intervalReport i nh nm (telemetryTick i nm (morningTweet i nh s))).eeprom
        (EEPROMaddrForNightStats + k) = s.nightStats.byteAt k % 256 := by
    rw [intervalReport_eeprom]
    split
    · rw [saveNightStats_region _ _ hk, (telemetryTick_keeps i nm _).1,
        morningTweet_off i nh s hno7]
    · rw [(telemetryTick_keeps i nm _).2.2.2.2.2.2.2, morningTweet_off i nh s hno7, hs]
  unfold loopTail
  simp only []
  split
  · rw [updateRtcUsingNTP_other _ _ _ _ (by simp only [EEPROMaddrForNightStats]; omega),
      (handleButtonPress_keeps _ _ _).2.2.2.2.2.2, e5]
  · rw [(handleButtonPress_keeps _ _ _).2.2.2.2.2.2, e5]

theorem handleButtonPress_off (t : DateTime) (b : Bool) (s : State)
    (h : ¬ (b = true ∧ 7 ≤ t.hour ∧ t.hour < 22)) : handleButtonPress t b s = s := by
  unfold handleButtonPress
  cases b
  · rfl
  · have h2 : ¬ (t.hour ≥ 7 ∧ t.hour < 22) := fun hc => h ⟨rfl, hc.1, hc.2⟩
    simp [h2]

theorem loopTail_nightStats (i : LoopInput) (nh nm : Bool) (s : State)
    (h : ¬ (i.button = true ∧ 7 ≤ i.dateNow.hour ∧ i.dateNow.hour < 22)) :
    (loopTail i nh nm s).nightStats = s.nightStats := by
  unfold loopTail
  simp only []
  split
  · rw [(updateRtcUsingNTP_keeps _ _ _).1, handleButtonPress_off _ _ _ h,
      (intervalReport_keeps _ _ _ _).1, (telemetryTick_keeps _ _ _).1,
      (morningTweet_keeps _ _ _).1]
  · rw [handleButtonPress_off _ _ _ h,
      (intervalReport_keeps _ _ _ _).1, (telemetryTick_keeps _ _ _).1,
      (morningTweet_keeps _ _ _).1]

theorem loopTail_interval (i : LoopInput) (nh nm : Bool) (s : State) :
    (loopTail i nh nm s).distanceRunIntervalInCm
      = if intervalReportDue i nh nm = true then 0 else s.distanceRunIntervalInCm := by
  have e5 : (intervalReport i nh nm (telemetryTick i nm (morningTweet i nh s))).distanceRunIntervalInCm
      = if intervalReportDue i nh nm = true then 0 else s.distanceRunIntervalInCm := by
    rw [intervalReport_interval, (telemetryTick_keeps _ _ _).2.2.2.1,
      (morningTweet_keeps _ _ _).2.2.2.1]
  unfold loopTail
  simp only []
  split
  · rw [(updateRtcUsingNTP_keeps _ _ _).2.2.2.1, (handleButtonPress_keeps _ _ _).2.2.1, e5]
  · rw [(handleButtonPress_keeps _ _ _).2.2.1, e5]


theorem initResetLog_region (s : State) (k : Nat) (hk : k < 6) :
    (initResetLog s).eeprom (EEPROMaddrForResetLog + k) = 0 := by
  have h : k < sizeofDateTime := hk
  simp [initResetLog, writeBlock_apply, h]

theorem initDebugMsgLog_region (s : State) :
    (initDebugMsgLog s).eeprom 100 = 55 ∧ (initDebugMsgLog s).eeprom 123 = 55 ∧
    ∀ k, 0 < k → k < 23 → (initDebugMsgLog s).eeprom (100 + k) = 0 := by
  refine ⟨?_, ?_, ?_⟩
  · simp [initDebugMsgLog, EEPROM.write, EEPROMaddrForDebugLog, NUMBER_OF_DEBUG_MESSAGES,
      DEBUG_START_MARKER]
  · simp [initDebugMsgLog, EEPROM.write, EEPROMaddrForDebugLog, NUMBER_OF_DEBUG_MESSAGES,
      DEBUG_START_MARKER]
  · intro k h0 h23
    have h1 : ¬ (100 + k = 123) := by omega
    have h2 : ¬ (k = 0) := by omega
    have h3 : k < 23 := h23
    simp [initDebugMsgLog, EEPROM.write, EEPROMaddrForDebugLog, NUMBER_OF_DEBUG_MESSAGES,
      DEBUG_START_MARKER, writeBlock_apply, h1, h2, h3]
    intro h4
    omega

theorem sessionStart_fired_fields (i : LoopInput) (s : State) (h22 : i.dateNow.hour = 22) :
    (sessionStart i true s).nightStats = ⟨0, i.rtcFirst, i.rtcLast⟩ ∧
    (sessionStart i true s).statisticsCaptureState = STARTUP_TESTING_DISCARD_HEDGIE_STATISTICS ∧
    (sessionStart i true s).startupTestingCount = 0 ∧
    (sessionStart i true s).distanceRunIntervalInCm = 0 ∧
    (sessionStart i true s).wheelState = DETERMINE_MIRROR_LOCATION ∧
    (sessionStart i true s).eeprom
      = (initResetLog (initDebugMsgLog (saveNightStatsToEEPROM
          (initNightStats i.rtcFirst i.rtcLast
            { s with wheelState := DETERMINE_MIRROR_LOCATION })))).eeprom := by
  simp [sessionStart, h22, initNightStats, initResetLog, initDebugMsgLog, saveNightStatsToEEPROM]

theorem sessionStart_fired_eeprom (i : LoopInput) (s : State) (h22 : i.dateNow.hour = 22) :
    (∀ k, k < 16 → (sessionStart i true s).eeprom (EEPROMaddrForNightStats + k)
        = (sessionStart i true s).nightStats.byteAt k % 256) ∧
    (∀ k, k < 6 → (sessionStart i true s).eeprom (EEPROMaddrForResetLog + k) = 0) ∧
    (sessionStart i true s).eeprom 100 = 55 ∧
    (sessionStart i true s).eeprom 123 = 55 ∧
    ∀ k, 0 < k → k < 23 → (sessionStart i true s).eeprom (100 + k) = 0 := by
  obtain ⟨h1, _, _, _, _, h6⟩ := sessionStart_fired_fields i s h22
  rw [h6, h1]
  refine ⟨?_, ?_, ?_, ?_, ?_⟩
  · intro k hk
    rw [initResetLog_other _ _ (Or.inr (by simp only [EEPROMaddrForNightStats]; omega)),
      initDebugMsgLog_other _ _ (Or.inr (by simp only [EEPROMaddrForNightStats]; omega)),
      saveNightStats_region _ _ hk]
    rfl
  · intro k hk
    exact initResetLog_region _ k hk
  · rw [initResetLog_other _ _ (Or.inl (by omega))]
    exact (initDebugMsgLog_region _).1
  · rw [initResetLog_other _ _ (Or.inl (by omega))]
    exact (initDebugMsgLog_region _).2.1
  · intro k h0 h23
    rw [initResetLog_other _ _ (Or.inl (by omega))]
    exact (initDebugMsgLog_region _).2.2 k h0 h23

/-! ## C11: scheduled persistence -/

/-- C11. Scheduled persistence: in every loop cycle, whatever values the
locals `newHour` and `newMinute` hold (with a valid clock reading: the results
of `isNewHour` and `isNewMinute`), the interval report fires if and only if
(hour >= 22 or hour < 7 or (newHour and hour == 7)) and newMinute and
minute % 5 == 0. When it fires, the accumulated distance is sent, the value
passed to `sendDataToSparkFun` is the interval accumulator's value before the
reset (the request that carries it is written only if `client.connect`
succeeds, and nothing else is sent otherwise), the live NightStats is
unchanged, at the end of the report the durable NightStats region holds the
live NightStats and the interval accumulator is 0. When it does not fire, the
EEPROM and the interval accumulator are unchanged and no interval value is
handed over. -/
theorem interval_report_persists (i : LoopInput) (nh nm : Bool) (s : State)
    (hwf : s.nightStats.wf) :
    (((i.dateNow.hour ≥ 22 ∨ i.dateNow.hour < 7 ∨ (nh = true ∧ i.dateNow.hour = 7)) ∧
        nm = true ∧ i.dateNow.minute % 5 = 0) →
      intervalReport i nh nm s
        = { saveNightStatsToEEPROM
              (sendDataToSparkFun i.dateNow s.distanceRunIntervalInCm i.sparkFunConnect
                i.sparkFunPolls
                { s with reports := s.reports ++
                    [Report.distance (convertCmsToM s.nightStats.totalDistanceInCm)] })
            with distanceRunIntervalInCm := 0 } ∧
      (intervalReport i nh nm s).reports
        = (s.reports ++ [Report.distance (convertCmsToM s.nightStats.totalDistanceInCm)]) ++
            (if i.sparkFunConnect = true then
              [Report.sparkFun i.dateNow s.distanceRunIntervalInCm] else []) ∧
      (intervalReport i nh nm s).nightStats = s.nightStats ∧
      durableNightStats (intervalReport i nh nm s).eeprom
        = (intervalReport i nh nm s).nightStats ∧
      (intervalReport i nh nm s).distanceRunIntervalInCm = 0) ∧
    (¬ ((i.dateNow.hour ≥ 22 ∨ i.dateNow.hour < 7 ∨ (nh = true ∧ i.dateNow.hour = 7)) ∧
        nm = true ∧ i.dateNow.minute % 5 = 0) →
      (intervalReport i nh nm s).reports
        = s.reports ++ (if nm = true ∧ i.dateNow.minute % 5 = 0 then [Report.distance 0]
            else []) ∧
      (intervalReport i nh nm s).nightStats = s.nightStats ∧
      (intervalReport i nh nm s).eeprom = s.eeprom ∧
      (intervalReport i nh nm s).distanceRunIntervalInCm = s.distanceRunIntervalInCm) := by
  constructor
  · intro hc
    have hdue : intervalReportDue i nh nm = true := (intervalReportDue_iff i nh nm).mpr hc
    refine ⟨?_, ?_, (intervalReport_keeps i nh nm s).1, ?_, ?_⟩
    · unfold intervalReport
      rw [if_pos hdue]
    · rw [intervalReport_eq, if_pos hdue]
    · rw [(intervalReport_keeps i nh nm s).1, intervalReport_eeprom, if_pos hdue]
      exact durableNightStats_of_region _ _ hwf (fun k hk => saveNightStats_region s k hk)
    · rw [intervalReport_interval, if_pos hdue]
  · intro hc
    have hdue : ¬ intervalReportDue i nh nm = true :=
      fun h => hc ((intervalReportDue_iff i nh nm).mp h)
    refine ⟨?_, (intervalReport_keeps i nh nm s).1, ?_, ?_⟩
    · rw [intervalReport_eq, if_neg hdue]
      by_cases h5 : nm = true ∧ i.dateNow.minute % 5 = 0
      · simp [h5]
      · rw [if_neg h5]
        have h6 : ¬ ((nm && decide (i.dateNow.minute % 5 = 0)) = true) := by
          simpa using h5
        rw [if_neg h6]
        simp
    · rw [intervalReport_eeprom, if_neg hdue]
    · rw [intervalReport_interval, if_neg hdue]

/-- Witness of C11: the report step at 04:45, with a new minute and a
successful connect, in the state `sampleNight`. -/
theorem interval_report_persists_witness :
    (intervalReport (sampleCycle 4 45 100) false true sampleNight).reports
      = [Report.distance 106, Report.sparkFun (sampleTime 4 45) 170] ∧
    durableNightStats (intervalReport (sampleCycle 4 45 100) false true sampleNight).eeprom
      = sampleNight.nightStats ∧
    (intervalReport (sampleCycle 4 45 100) false true sampleNight).distanceRunIntervalInCm = 0 :=
  have h := (interval_report_persists (sampleCycle 4 45 100) false true sampleNight
    (by decide)).1 (by decide)
  ⟨h.2.1, h.2.2.1 ▸ h.2.2.2.1, h.2.2.2.2⟩

/-! ## C12: the session start at 22:00 -/

/-- C12, as stated, fails when the protoshield button is held in the cycle of
the session start: in the first cycle at 22:00 after the boot at 21:59, with
the button held, `updateRtcUsingNTP` runs after the 10pm block and the byte at
offset `ETHERNET_NTP_10` of the diagnostic log is 20 at the end of the cycle,
not 0. -/
theorem session_start_log_not_clear :
    sampleFresh.prevHour ≠ 22 ∧ sampleTenWithNtp.dateNow.hour = 22 ∧
    0 < ETHERNET_NTP_10 ∧ ETHERNET_NTP_10 < NUMBER_OF_DEBUG_MESSAGES ∧
    (loop sampleTenWithNtp sampleFresh).eeprom (EEPROMaddrForDebugLog + ETHERNET_NTP_10)
      = 20 := by
  decide

/-- C12, amended. Session start at 22:00: in every loop cycle that is the
first observation of hour 22, at the end of the cycle the live NightStats is
the freshly reset one (`totalDistanceInCm` 0, the two clock readings of
`initNightStats`), the capture state is WARMUP with warm-up counter 0, the
interval accumulator is 0, the wheel state is `DETERMINE_MIRROR_LOCATION`, the
durable NightStats region holds this NightStats, every byte of the
reset-marker region is 0, the two sentinel bytes of the diagnostic log are 55,
and every other byte of the diagnostic log is 0, except that the bytes of the
event codes of `updateRtcUsingNTP` (offsets 11 to 14 and 16 to 22) are only
known to be 0 when the protoshield button is not pressed in that cycle. -/
theorem session_start_cycle (i : LoopInput) (s : State)
    (hnew : s.prevHour ≠ 22) (h22 : i.dateNow.hour = 22)
    (hwf1 : i.rtcFirst.wf) (hwf2 : i.rtcLast.wf) :
    (loop i s).nightStats = ⟨0, i.rtcFirst, i.rtcLast⟩ ∧
    (loop i s).nightStats.totalDistanceInCm = 0 ∧
    (loop i s).statisticsCaptureState = STARTUP_TESTING_DISCARD_HEDGIE_STATISTICS ∧
    (loop i s).startupTestingCount = 0 ∧
    (loop i s).distanceRunIntervalInCm = 0 ∧
    (loop i s).wheelState = DETERMINE_MIRROR_LOCATION ∧
    durableNightStats (loop i s).eeprom = (loop i s).nightStats ∧
    (∀ k, k < 6 → (loop i s).eeprom (EEPROMaddrForResetLog + k) = 0) ∧
    (loop i s).eeprom (EEPROMaddrForDebugLog + DEBUG_START_MARKER) = 55 ∧
    (loop i s).eeprom (EEPROMaddrForDebugLog + NUMBER_OF_DEBUG_MESSAGES) = 55 ∧
    (∀ k, 0 < k → k < NUMBER_OF_DEBUG_MESSAGES →
      (i.protoshieldButton = false ∨ k ≤ 10 ∨ k = 15) →
      (loop i s).eeprom (EEPROMaddrForDebugLog + k) = 0) := by
  have hvalid : i.dateNow.hour ≤ 23 := by omega
  have hnh : (observeClock i s).1 = true :=
    (observeClock_valid i s hvalid).1.mpr (by rw [h22]; exact fun h => hnew h.symm)
  have hno7 : i.dateNow.hour ≠ 7 := by omega
  have hnoreload : ¬ (i.button = true ∧ 7 ≤ i.dateNow.hour ∧ i.dateNow.hour < 22) := by omega
  have hhead : loopHead i s = sessionStart i true (wheelSwitch i (observeClock i s).2.2) := by
    unfold loopHead
    rw [hnh]
  obtain ⟨f1, f2, f3, f4, f5, _⟩ :=
    sessionStart_fired_fields i (wheelSwitch i (observeClock i s).2.2) h22
  obtain ⟨g1, g2, g3, g4, g5⟩ :=
    sessionStart_fired_eeprom i (wheelSwitch i (observeClock i s).2.2) h22
  rw [← hhead] at f1 f2 f3 f4 f5 g1 g2 g3 g4 g5
  obtain ⟨t1, t2, t3, _, _⟩ :=
    loopTail_keeps i (observeClock i s).1 (observeClock i s).2.1 (loopHead i s)
  have hstats : (loop i s).nightStats = ⟨0, i.rtcFirst, i.rtcLast⟩ := by
    rw [loop_eq_tail_head, loopTail_nightStats _ _ _ _ hnoreload, f1]
  have hfreshwf : (⟨0, i.rtcFirst, i.rtcLast⟩ : HedgieNightStats_t).wf :=
    ⟨by show (0 : Nat) < 4294967296; decide, hwf1, hwf2⟩
  refine ⟨hstats, by rw [hstats], ?_, ?_, ?_, ?_, ?_, ?_, ?_, ?_, ?_⟩
  · rw [loop_eq_tail_head, t1, f2]
  · rw [loop_eq_tail_head, t2, f3]
  · rw [loop_eq_tail_head, loopTail_interval, f4]
    split <;> rfl
  · rw [loop_eq_tail_head, t3, f5]
  · rw [hstats]
    apply durableNightStats_of_region _ _ hfreshwf
    intro k hk
    rw [loop_eq_tail_head, loopTail_eeprom_stats _ _ _ _ k hno7 hk (g1 k hk), f1]
  · intro k hk
    rw [loop_eq_tail_head, loopTail_eeprom_other _ _ _ _ _ hno7
      (Or.inl (by simp only [EEPROMaddrForResetLog]; omega))
      (Or.inr (Or.inr (Or.inl (by simp only [EEPROMaddrForResetLog]; omega))))]
    exact g2 k hk
  · rw [loop_eq_tail_head, loopTail_eeprom_other _ _ _ _ _ hno7
      (Or.inl (by simp only [EEPROMaddrForDebugLog, DEBUG_START_MARKER]; omega))
      (Or.inr (Or.inl (by simp only [EEPROMaddrForDebugLog, DEBUG_START_MARKER]; omega)))]
    exact g3
  · rw [loop_eq_tail_head, loopTail_eeprom_other _ _ _ _ _ hno7
      (Or.inl (by simp only [EEPROMaddrForDebugLog, NUMBER_OF_DEBUG_MESSAGES]; omega))
      (Or.inr (Or.inr (Or.inl
        (by simp only [EEPROMaddrForDebugLog, NUMBER_OF_DEBUG_MESSAGES]; omega))))]
    exact g4
  · intro k h0 h23 hk
    simp only [NUMBER_OF_DEBUG_MESSAGES] at h23
    have hntp : i.protoshieldButton = false ∨ EEPROMaddrForDebugLog + k < 111 ∨
        123 ≤ EEPROMaddrForDebugLog + k ∨ EEPROMaddrForDebugLog + k = 115 := by
      simp only [EEPROMaddrForDebugLog]
      rcases hk with h | h | h
      · exact Or.inl h
      · exact Or.inr (Or.inl (by omega))
      · exact Or.inr (Or.inr (Or.inr (by omega)))
    rw [loop_eq_tail_head, loopTail_eeprom_other _ _ _ _ _ hno7
      (Or.inl (by simp only [EEPROMaddrForDebugLog]; omega)) hntp]
    exact g5 k h0 h23

/-- Witness of the amended C12: the first cycle at 22:00 after the boot at
21:59, no button pressed. -/
theorem session_start_cycle_witness :
    (loop (sampleCycle 22 0 100) sampleFresh).nightStats
      = ⟨0, sampleTime 22 0, sampleTime 22 0⟩ ∧
    durableNightStats (loop (sampleCycle 22 0 100) sampleFresh).eeprom
      = (loop (sampleCycle 22 0 100) sampleFresh).nightStats ∧
    (loop (sampleCycle 22 0 100) sampleFresh).eeprom (EEPROMaddrForDebugLog + ETHERNET_NTP_10)
      = 0 :=
  have h := session_start_cycle (sampleCycle 22 0 100) sampleFresh (by decide) (by decide)
    (by decide) (by decide)
  ⟨h.1, h.2.2.2.2.2.2.1, h.2.2.2.2.2.2.2.2.2.2 ETHERNET_NTP_10 (by decide) (by decide)
    (Or.inl rfl)⟩

/-! ## Auxiliary facts about counted rotations -/

theorem detectMirror_counted (dateNow now : DateTime) (analog : Nat) (s : State)
    (hm : isMirror analog = true) (hnight : dateNow.hour ≥ 22 ∨ dateNow.hour < 7)
    (hcap : s.statisticsCaptureState = CAPTURE_HEDGIE_STATISTICS) :
    (s.nightStats.totalDistanceInCm = 0 →
      (detectMirror dateNow analog now s).nightStats.dateTimeOfFirstRotationInDateTime = now ∧
      (detectMirror dateNow analog now s).nightStats.dateTimeOfLastRotationInDateTime
        = s.nightStats.dateTimeOfLastRotationInDateTime) ∧
    (s.nightStats.totalDistanceInCm ≠ 0 →
      (detectMirror dateNow analog now s).nightStats.dateTimeOfLastRotationInDateTime = now ∧
      (detectMirror dateNow analog now s).nightStats.dateTimeOfFirstRotationInDateTime
        = s.nightStats.dateTimeOfFirstRotationInDateTime) ∧
    (detectMirror dateNow analog now s).nightStats.totalDistanceInCm
      = (s.nightStats.totalDistanceInCm + 85) % 4294967296 ∧
    (detectMirror dateNow analog now s).distanceRunIntervalInCm
      = (s.distanceRunIntervalInCm + 85) % 4294967296 ∧
    (detectMirror dateNow analog now s).statisticsCaptureState = CAPTURE_HEDGIE_STATISTICS ∧
    (detectMirror dateNow analog now s).startupTestingCount = s.startupTestingCount := by
  by_cases hz : s.nightStats.totalDistanceInCm = 0
  · simp [detectMirror, hm, hnight, hcap, hz, WHEEL_CIRCUMFERENCE_IN_CM]
  · simp [detectMirror, hm, hnight, hcap, hz, WHEEL_CIRCUMFERENCE_IN_CM]

theorem detectMirror_warmup_keeps (dateNow now : DateTime) (analog : Nat) (s : State)
    (hcap : s.statisticsCaptureState = STARTUP_TESTING_DISCARD_HEDGIE_STATISTICS) :
    (detectMirror dateNow analog now s).nightStats = s.nightStats ∧
    (detectMirror dateNow analog now s).distanceRunIntervalInCm = s.distanceRunIntervalInCm := by
  unfold detectMirror
  split
  · split
    · simp only []
      split <;> exact ⟨rfl, rfl⟩
    · exact ⟨rfl, rfl⟩
  · exact ⟨rfl, rfl⟩

theorem rotationRun_append (s : State) (a b : List LoopInput) :
    rotationRun s (a ++ b) = rotationRun (rotationRun s a) b := by
  simp [rotationRun, List.foldl_append]

theorem rotationRun_cons (s : State) (i : LoopInput) (rest : List LoopInput) :
    rotationRun s (i :: rest)
      = rotationRun (detectMirror i.dateNow i.analog i.rtcRotation s) rest := rfl

theorem rotationRun_warmup_keeps (is : List LoopInput) (n : Nat) (s : State)
    (hall : ∀ i ∈ is, isMirror i.analog = true ∧ (i.dateNow.hour ≥ 22 ∨ i.dateNow.hour < 7))
    (h : warmupInv n s) (hlen : n + is.length ≤ 10) :
    (rotationRun s is).nightStats = s.nightStats := by
  induction is generalizing n s with
  | nil => rfl
  | cons i rest ih =>
    have hi := hall i (List.mem_cons_self i rest)
    have hrest : ∀ j ∈ rest, isMirror j.analog = true ∧
        (j.dateNow.hour ≥ 22 ∨ j.dateNow.hour < 7) :=
      fun j hj => hall j (List.mem_cons_of_mem i hj)
    rw [List.length_cons] at hlen
    have hcap := (h.1 (by omega)).1
    have step := detectMirror_warmupInv n s i.dateNow i.rtcRotation i.analog hi.1 hi.2 h
    rw [rotationRun_cons, ih (n + 1) _ hrest step (by omega),
      (detectMirror_warmup_keeps i.dateNow i.rtcRotation i.analog s hcap).1]

theorem rotationRun_counted_total (is : List LoopInput) (s : State)
    (hall : ∀ i ∈ is, isMirror i.analog = true ∧ (i.dateNow.hour ≥ 22 ∨ i.dateNow.hour < 7))
    (hcap : s.statisticsCaptureState = CAPTURE_HEDGIE_STATISTICS)
    (hlt : s.nightStats.totalDistanceInCm < 4294967296) :
    (rotationRun s is).statisticsCaptureState = CAPTURE_HEDGIE_STATISTICS ∧
    (rotationRun s is).nightStats.totalDistanceInCm
      = (s.nightStats.totalDistanceInCm + 85 * is.length) % 4294967296 := by
  induction is generalizing s with
  | nil =>
    refine ⟨hcap, ?_⟩
    simp only [rotationRun, List.foldl_nil, List.length_nil]
    omega
  | cons i rest ih =>
    have hi := hall i (List.mem_cons_self i rest)
    have hrest : ∀ j ∈ rest, isMirror j.analog = true ∧
        (j.dateNow.hour ≥ 22 ∨ j.dateNow.hour < 7) :=
      fun j hj => hall j (List.mem_cons_of_mem i hj)
    obtain ⟨_, _, st, _, sc, _⟩ :=
      detectMirror_counted i.dateNow i.rtcRotation i.analog s hi.1 hi.2 hcap
    rw [rotationRun_cons, List.length_cons]
    obtain ⟨c, t⟩ := ih _ hrest sc (by rw [st]; omega)
    refine ⟨c, ?_⟩
    rw [t, st]
    omega

theorem rotationRun_first_kept (is : List LoopInput) (s : State)
    (hall : ∀ i ∈ is, isMirror i.analog = true ∧ (i.dateNow.hour ≥ 22 ∨ i.dateNow.hour < 7))
    (hcap : s.statisticsCaptureState = CAPTURE_HEDGIE_STATISTICS)
    (hnz : ∀ k, k < is.length → (s.nightStats.totalDistanceInCm + 85 * k) % 4294967296 ≠ 0) :
    (rotationRun s is).nightStats.dateTimeOfFirstRotationInDateTime
      = s.nightStats.dateTimeOfFirstRotationInDateTime := by
  induction is generalizing s with
  | nil => rfl
  | cons i rest ih =>
    have hi := hall i (List.mem_cons_self i rest)
    have hrest : ∀ j ∈ rest, isMirror j.analog = true ∧
        (j.dateNow.hour ≥ 22 ∨ j.dateNow.hour < 7) :=
      fun j hj => hall j (List.mem_cons_of_mem i hj)
    obtain ⟨_, sn, st, _, sc, _⟩ :=
      detectMirror_counted i.dateNow i.rtcRotation i.analog s hi.1 hi.2 hcap
    have h0 : s.nightStats.totalDistanceInCm ≠ 0 := by
      have := hnz 0 (by simp)
      intro hz
      rw [hz] at this
      exact this (by decide)
    rw [rotationRun_cons, ih _ hrest sc, (sn h0).2]
    intro k hk
    rw [st]
    have := hnz (k + 1) (by simp; omega)
    omega

theorem mul85_mod_ne_zero (x : Nat) (h0 : 0 < x) (hx : x < 4294967296) :
    85 * x % 4294967296 ≠ 0 := by
  omega


theorem wheelSwitch_total (i : LoopInput) (s : State) :
    (wheelSwitch i s).nightStats.totalDistanceInCm = s.nightStats.totalDistanceInCm ∨
    (wheelSwitch i s).nightStats.totalDistanceInCm
      = (s.nightStats.totalDistanceInCm + 85) % 4294967296 := by
  unfold wheelSwitch
  split
  · split <;> exact Or.inl rfl
  · by_cases hm : isMirror i.analog = true
    · by_cases hnight : i.dateNow.hour ≥ 22 ∨ i.dateNow.hour < 7
      · cases hcap : s.statisticsCaptureState
        · left
          rw [(detectMirror_warmup_keeps _ _ _ s hcap).1]
        · right
          exact (detectMirror_counted _ _ _ s hm hnight hcap).2.2.1
      · left
        simp [detectMirror, hm, hnight]
    · left
      simp [detectMirror, hm]
  · left
    rw [(detectWhite_keeps _ s).2.2.2.2.1]

theorem sessionStart_off (i : LoopInput) (nh : Bool) (s : State)
    (h : ¬ (nh = true ∧ i.dateNow.hour = 22)) : sessionStart i nh s = s := by
  unfold sessionStart
  rw [if_neg]
  simpa using h

/-! ## C13: the first rotation time -/

/-- C13, as stated, fails once the counter wraps. In the session
`sampleEndless`, begun at the boot state `sampleFresh`, the rotation at 23:05
finds `totalDistanceInCm == 0` and sets the first rotation time; 2^32 counted
rotations later the 32 bit counter is back at 0, and the rotation at 02:00
sets the first rotation time again. -/
theorem first_rotation_time_set_again :
    (rotationRun sampleFresh sampleSessionStart).nightStats
        = ⟨85, sampleTime 23 5, sampleTime 21 59⟩ ∧
    (rotationRun sampleFresh
      (sampleSessionStart ++ sampleWrap)).nightStats.totalDistanceInCm = 0 ∧
    (rotationRun sampleFresh sampleEndless).nightStats.dateTimeOfFirstRotationInDateTime
      = sampleTime 2 0 ∧
    (∀ i ∈ sampleEndless, isMirror i.analog = true ∧
      (i.dateNow.hour ≥ 22 ∨ i.dateNow.hour < 7)) := by
  have hA : (rotationRun sampleFresh sampleSessionStart).nightStats
        = ⟨85, sampleTime 23 5, sampleTime 21 59⟩ := by decide
  have hAc : (rotationRun sampleFresh sampleSessionStart).statisticsCaptureState
        = CAPTURE_HEDGIE_STATISTICS := by decide
  have hL2 : ∀ i ∈ sampleWrap,
      isMirror i.analog = true ∧ (i.dateNow.hour ≥ 22 ∨ i.dateNow.hour < 7) := by
    intro i hi
    rw [List.eq_of_mem_replicate hi]
    decide
  have hlen : sampleWrap.length = 4294967295 := List.length_replicate _ _
  obtain ⟨hBc, hBt⟩ := rotationRun_counted_total sampleWrap
    (rotationRun sampleFresh sampleSessionStart) hL2 hAc (by rw [hA]; decide)
  rw [hlen, hA] at hBt
  have hB0 : (rotationRun (rotationRun sampleFresh sampleSessionStart)
      sampleWrap).nightStats.totalDistanceInCm = 0 := hBt
  have e1 : rotationRun sampleFresh (sampleSessionStart ++ sampleWrap)
      = rotationRun (rotationRun sampleFresh sampleSessionStart) sampleWrap :=
    rotationRun_append _ _ _
  have e2 : rotationRun sampleFresh sampleEndless
      = detectMirror (sampleCycle 2 0 512).dateNow (sampleCycle 2 0 512).analog
          (sampleCycle 2 0 512).rtcRotation
          (rotationRun (rotationRun sampleFresh sampleSessionStart) sampleWrap) :=
    (rotationRun_append sampleFresh (sampleSessionStart ++ sampleWrap)
      [sampleCycle 2 0 512]).trans (congrArg (fun x => rotationRun x [sampleCycle 2 0 512]) e1)
  refine ⟨hA, ?_, ?_, ?_⟩
  · rw [e1]
    exact hB0
  · rw [e2]
    exact ((detectMirror_counted _ _ _ _ (by decide) (by decide) hBc).1 hB0).1
  · intro i hi
    have hi2 : (i ∈ sampleSessionStart ∨ i ∈ sampleWrap) ∨ i = sampleCycle 2 0 512 := by
      unfold sampleEndless at hi
      rw [List.mem_append, List.mem_append, List.mem_singleton] at hi
      exact hi
    have hL1 : ∀ j ∈ sampleSessionStart,
        isMirror j.analog = true ∧ (j.dateNow.hour ≥ 22 ∨ j.dateNow.hour < 7) := by decide
    rcases hi2 with (h | h) | h
    · exact hL1 i h
    · exact hL2 i h
    · rw [h]
      decide

/-- C13, amended. The first rotation time is set once per 2^32 counted
rotations: in a capturing state with `totalDistanceInCm == 0`, over every
sequence of counted rotation events (mirror seen, clock in the night window),
the first event sets `dateTimeOfFirstRotationInDateTime` to its clock reading
and takes `totalDistanceInCm` to 85; each of the next 2^32 - 1 counted
rotations finds `totalDistanceInCm` nonzero and leaves the first rotation time
as it is. -/
theorem first_rotation_time_set_once (s : State) (i : LoopInput) (rest : List LoopInput)
    (hcap : s.statisticsCaptureState = CAPTURE_HEDGIE_STATISTICS)
    (hzero : s.nightStats.totalDistanceInCm = 0)
    (hall : ∀ j ∈ i :: rest, isMirror j.analog = true ∧
      (j.dateNow.hour ≥ 22 ∨ j.dateNow.hour < 7))
    (hlen : rest.length < 4294967296) :
    (rotationRun s [i]).nightStats.dateTimeOfFirstRotationInDateTime = i.rtcRotation ∧
    (rotationRun s [i]).nightStats.totalDistanceInCm = 85 ∧
    (∀ k, k < rest.length →
      (rotationRun s (i :: rest.take k)).nightStats.totalDistanceInCm ≠ 0 ∧
      (rotationRun s (i :: rest.take (k + 1))).nightStats.dateTimeOfFirstRotationInDateTime
        = (rotationRun s (i :: rest.take k)).nightStats.dateTimeOfFirstRotationInDateTime) ∧
    (rotationRun s (i :: rest)).nightStats.dateTimeOfFirstRotationInDateTime
      = i.rtcRotation := by
  have hi := hall i (List.mem_cons_self i rest)
  have hrest : ∀ j ∈ rest, isMirror j.analog = true ∧
      (j.dateNow.hour ≥ 22 ∨ j.dateNow.hour < 7) :=
    fun j hj => hall j (List.mem_cons_of_mem i hj)
  obtain ⟨sf, _, st, _, sc, _⟩ :=
    detectMirror_counted i.dateNow i.rtcRotation i.analog s hi.1 hi.2 hcap
  have hfirst := (sf hzero).1
  rw [hzero] at st
  have st85 : (detectMirror i.dateNow i.analog i.rtcRotation s).nightStats.totalDistanceInCm
      = 85 := st
  have hkept : ∀ l : List LoopInput, (∀ j ∈ l, j ∈ rest) → l.length < 4294967296 →
      (rotationRun s (i :: l)).nightStats.dateTimeOfFirstRotationInDateTime = i.rtcRotation := by
    intro l hl hlenl
    rw [rotationRun_cons, rotationRun_first_kept l _ (fun j hj => hrest j (hl j hj)) sc, hfirst]
    intro k hk
    rw [st85]
    omega
  have htotal : ∀ l : List LoopInput, (∀ j ∈ l, j ∈ rest) → l.length + 1 < 4294967296 →
      (rotationRun s (i :: l)).nightStats.totalDistanceInCm ≠ 0 := by
    intro l hl hlenl
    rw [rotationRun_cons,
      (rotationRun_counted_total l _ (fun j hj => hrest j (hl j hj)) sc
        (by rw [st85]; decide)).2, st85]
    omega
  refine ⟨hfirst, st85, ?_, hkept rest (fun j hj => hj) hlen⟩
  intro k hk
  have hsub : ∀ n, ∀ j ∈ rest.take n, j ∈ rest := fun n j hj => List.mem_of_mem_take hj
  have hl1 : (rest.take k).length = k := by
    rw [List.length_take]
    omega
  have hl2 : (rest.take (k + 1)).length = k + 1 := by
    rw [List.length_take]
    omega
  refine ⟨htotal _ (hsub k) (by rw [hl1]; omega), ?_⟩
  rw [hkept _ (hsub (k + 1)) (by rw [hl2]; omega), hkept _ (hsub k) (by rw [hl1]; omega)]

/-- Witness of the amended C13: in the capturing night state with the total
set to 0, a rotation at 23:05 followed by two rotations at 23:30. -/
theorem first_rotation_time_set_once_witness :
    (rotationRun { sampleNight with nightStats := ⟨0, sampleTime 22 0, sampleTime 22 0⟩ }
      [sampleCycle 23 5 512, sampleCycle 23 30 512, sampleCycle 23 30 512]
      ).nightStats.dateTimeOfFirstRotationInDateTime = sampleTime 23 5 :=
  (first_rotation_time_set_once
    { sampleNight with nightStats := ⟨0, sampleTime 22 0, sampleTime 22 0⟩ }
    (sampleCycle 23 5 512) [sampleCycle 23 30 512, sampleCycle 23 30 512]
    (by decide) (by decide) (by decide) (by decide)).2.2.2

/-! ## C14: the total distance within a session -/

/-- C14, as stated, fails at the manual reload. After the recovery boot at
23:05, one counted rotation takes the live total to 10540 while the durable
record stays at 10455; the clock is then set from the network and reads 10:15;
in that cycle, which is no session start, the button is pressed and
`handleButtonPress` replaces the live record by the durable one: the total
falls from 10540 to 10455. -/
theorem total_distance_falls_at_reload :
    (runLoop sampleRecovered sampleClockFix).nightStats.totalDistanceInCm = 10540 ∧
    sampleReload.dateNow.hour ≠ 22 ∧
    (loop sampleReload (runLoop sampleRecovered sampleClockFix)).nightStats.totalDistanceInCm
      = 10455 := by
  decide

/-- C14, amended. `totalDistanceInCm` does not decrease in a cycle without
counter wrap and without manual reload: for every state with
`totalDistanceInCm + 85 < 2^32` and every loop cycle that is not a session
start (not the first observation of hour 22) and in which `handleButtonPress`
does not reload (the button is not pressed or the hour is outside
7 <= hour < 22), `totalDistanceInCm` at the end of the cycle is its value at
the start of the cycle or that value plus 85. -/
theorem total_distance_not_decreasing (i : LoopInput) (s : State)
    (hns : i.dateNow.hour = 22 → s.prevHour = 22)
    (hnoreload : ¬ (i.button = true ∧ 7 ≤ i.dateNow.hour ∧ i.dateNow.hour < 22))
    (hnowrap : s.nightStats.totalDistanceInCm + 85 < 4294967296) :
    s.nightStats.totalDistanceInCm ≤ (loop i s).nightStats.totalDistanceInCm ∧
    ((loop i s).nightStats.totalDistanceInCm = s.nightStats.totalDistanceInCm ∨
      (loop i s).nightStats.totalDistanceInCm = s.nightStats.totalDistanceInCm + 85) := by
  have hoff : ¬ ((observeClock i s).1 = true ∧ i.dateNow.hour = 22) := by
    intro hc
    have hp := hns hc.2
    have hv : i.dateNow.hour ≤ 23 := by omega
    exact ((observeClock_valid i s hv).1.mp hc.1) (by rw [hp, hc.2])
  have hstats : (loop i s).nightStats = (wheelSwitch i (observeClock i s).2.2).nightStats := by
    rw [loop_eq_tail_head, loopTail_nightStats _ _ _ _ hnoreload]
    unfold loopHead
    rw [sessionStart_off _ _ _ hoff]
  have h0 : (observeClock i s).2.2.nightStats = s.nightStats := (observeClock_keeps i s).1
  have hm : (s.nightStats.totalDistanceInCm + 85) % 4294967296
      = s.nightStats.totalDistanceInCm + 85 := Nat.mod_eq_of_lt hnowrap
  have key : (loop i s).nightStats.totalDistanceInCm = s.nightStats.totalDistanceInCm ∨
      (loop i s).nightStats.totalDistanceInCm = s.nightStats.totalDistanceInCm + 85 := by
    rw [hstats]
    rcases wheelSwitch_total i (observeClock i s).2.2 with h | h
    · left
      rw [h, h0]
    · right
      rw [h, h0, hm]
  refine ⟨?_, key⟩
  rcases key with h | h <;> omega

/-- Witness of the amended C14: a counted rotation at 04:44 in the state
`sampleNight`. -/
theorem total_distance_not_decreasing_witness :
    sampleNight.nightStats.totalDistanceInCm
      ≤ (loop (sampleCycle 4 44 512) sampleNight).nightStats.totalDistanceInCm :=
  (total_distance_not_decreasing (sampleCycle 4 44 512) sampleNight (by decide) (by decide)
    (by decide)).1

/-! ## C16: one counted rotation -/

/-- C16. One counted rotation (capture state ACTIVE, clock in the night
window, mirror seen): if `totalDistanceInCm == 0` beforehand, only the
first-rotation time is set to the reading of `rtc.now()` and the last-rotation
time is unchanged; otherwise only the last-rotation time is set and the
first-rotation time is unchanged; in both cases 85 is added, in the 32 bit
arithmetic of the counters, to `totalDistanceInCm` and to the interval
accumulator (exactly 85 more whenever the old value is below 2^32 - 85).
Hence a session begun by `initNightStats` with readings `f` and `l`, after its
ten warm-up rotations `warm` and exactly one counted rotation `i`, still has
the last-rotation time `l`. -/
theorem counted_rotation_updates (dateNow now : DateTime) (analog : Nat) (s s0 : State)
    (f l : DateTime) (warm : List LoopInput) (i : LoopInput)
    (hm : isMirror analog = true) (hnight : dateNow.hour ≥ 22 ∨ dateNow.hour < 7)
    (hcap : s.statisticsCaptureState = CAPTURE_HEDGIE_STATISTICS)
    (hs0 : s0.statisticsCaptureState = STARTUP_TESTING_DISCARD_HEDGIE_STATISTICS)
    (hc0 : s0.startupTestingCount = 0)
    (hwarm : warm.length = 10)
    (hall : ∀ j ∈ warm ++ [i], isMirror j.analog = true ∧
      (j.dateNow.hour ≥ 22 ∨ j.dateNow.hour < 7)) :
    (s.nightStats.totalDistanceInCm = 0 →
      (detectMirror dateNow analog now s).nightStats.dateTimeOfFirstRotationInDateTime = now ∧
      (detectMirror dateNow analog now s).nightStats.dateTimeOfLastRotationInDateTime
        = s.nightStats.dateTimeOfLastRotationInDateTime) ∧
    (s.nightStats.totalDistanceInCm ≠ 0 →
      (detectMirror dateNow analog now s).nightStats.dateTimeOfLastRotationInDateTime = now ∧
      (detectMirror dateNow analog now s).nightStats.dateTimeOfFirstRotationInDateTime
        = s.nightStats.dateTimeOfFirstRotationInDateTime) ∧
    (detectMirror dateNow analog now s).nightStats.totalDistanceInCm
      = (s.nightStats.totalDistanceInCm + WHEEL_CIRCUMFERENCE_IN_CM) % 4294967296 ∧
    (detectMirror dateNow analog now s).distanceRunIntervalInCm
      = (s.distanceRunIntervalInCm + WHEEL_CIRCUMFERENCE_IN_CM) % 4294967296 ∧
    (s.nightStats.totalDistanceInCm + 85 < 4294967296 →
      (detectMirror dateNow analog now s).nightStats.totalDistanceInCm
        = s.nightStats.totalDistanceInCm + 85) ∧
    (s.distanceRunIntervalInCm + 85 < 4294967296 →
      (detectMirror dateNow analog now s).distanceRunIntervalInCm
        = s.distanceRunIntervalInCm + 85) ∧
    (rotationRun (initNightStats f l s0) (warm ++ [i])).nightStats
      = ⟨85, i.rtcRotation, l⟩ := by
  obtain ⟨a1, a2, a3, a4, _, _⟩ := detectMirror_counted dateNow now analog s hm hnight hcap
  refine ⟨a1, a2, a3, a4, ?_, ?_, ?_⟩
  · intro h
    rw [a3, Nat.mod_eq_of_lt h]
  · intro h
    rw [a4, Nat.mod_eq_of_lt h]
  · have hw : ∀ j ∈ warm, isMirror j.analog = true ∧
        (j.dateNow.hour ≥ 22 ∨ j.dateNow.hour < 7) :=
      fun j hj => hall j (List.mem_append_left _ hj)
    have hi := hall i (List.mem_append_right _ (List.mem_singleton_self i))
    have inv0 : warmupInv 0 (initNightStats f l s0) :=
      ⟨fun _ => ⟨hs0, hc0, rfl⟩, fun h => absurd h (by decide)⟩
    have hkeep := rotationRun_warmup_keeps warm 0 _ hw inv0 (by omega)
    have hinv := rotationRun_warmupInv warm 0 _ hw inv0
    rw [Nat.zero_add, hwarm] at hinv
    have hcap10 := (hinv.2 (Nat.le_refl 10)).1
    obtain ⟨b1, _, b3, _, _, _⟩ :=
      detectMirror_counted i.dateNow i.rtcRotation i.analog _ hi.1 hi.2 hcap10
    have hz : (rotationRun (initNightStats f l s0) warm).nightStats.totalDistanceInCm = 0 := by
      rw [hkeep]
      rfl
    obtain ⟨c1, c2⟩ := b1 hz
    rw [hz] at b3
    rw [rotationRun_append]
    show (detectMirror i.dateNow i.analog i.rtcRotation
      (rotationRun (initNightStats f l s0) warm)).nightStats = ⟨85, i.rtcRotation, l⟩
    have e : ∀ n : HedgieNightStats_t, n.totalDistanceInCm = 85 →
        n.dateTimeOfFirstRotationInDateTime = i.rtcRotation →
        n.dateTimeOfLastRotationInDateTime = l → n = ⟨85, i.rtcRotation, l⟩ := by
      intro n h1 h2 h3
      cases n
      simp only at h1 h2 h3
      rw [h1, h2, h3]
    apply e
    · exact b3
    · exact c1
    · rw [c2, hkeep]
      rfl

/-- Witness of C16: a counted rotation at 04:44 in the state `sampleNight`, and
the session begun at 22:00 with ten warm-up rotations at 22:30 and a single
counted rotation at 23:05. -/
theorem counted_rotation_updates_witness :
    (detectMirror (sampleTime 4 44) 512 (sampleTime 4 44)
      sampleNight).nightStats.dateTimeOfLastRotationInDateTime = sampleTime 4 44 ∧
    (detectMirror (sampleTime 4 44) 512 (sampleTime 4 44)
      sampleNight).nightStats.totalDistanceInCm = 10710 ∧
    (rotationRun (initNightStats (sampleTime 22 0) (sampleTime 22 0) sampleFresh)
      sampleSessionStart).nightStats = ⟨85, sampleTime 23 5, sampleTime 22 0⟩ :=
  have h := counted_rotation_updates (sampleTime 4 44) (sampleTime 4 44) 512 sampleNight
    sampleFresh (sampleTime 22 0) (sampleTime 22 0) (List.replicate 10 (sampleCycle 22 30 512))
    (sampleCycle 23 5 512) (by decide) (by decide) (by decide) (by decide) (by decide)
    (by decide) (by decide)
  ⟨(h.2.1 (by decide)).1, h.2.2.2.2.1 (by decide), h.2.2.2.2.2.2⟩

/-! ## C15: the boundary scheduler -/

/-- C15. Boundary scheduler observation: for every valid clock reading
(hour <= 23) and every `prevHour`/`prevMinute`, `isNewHour` returns true
exactly when the hour differs from `prevHour`, `isNewMinute` (called next)
returns true exactly when the minute differs from `prevMinute`, and after the
two calls `prevHour` and `prevMinute` are the observed hour and minute; these
are the values `loop` uses, they are still in place at the end of the cycle,
and a following cycle `j` that observes the same reading reports neither a new
hour nor a new minute. -/
theorem boundary_observed_once (i j : LoopInput) (s : State)
    (hvalid : i.dateNow.hour ≤ 23) (hsame : j.dateNow = i.dateNow) :
    ((isNewHour i.dateNow s).1 = true ↔ i.dateNow.hour ≠ s.prevHour) ∧
    ((isNewMinute i.dateNow (isNewHour i.dateNow s).2).1 = true
        ↔ i.dateNow.minute ≠ s.prevMinute) ∧
    (isNewMinute i.dateNow (isNewHour i.dateNow s).2).2.prevHour = i.dateNow.hour ∧
    (isNewMinute i.dateNow (isNewHour i.dateNow s).2).2.prevMinute = i.dateNow.minute ∧
    observeClock i s = ((isNewHour i.dateNow s).1,
      (isNewMinute i.dateNow (isNewHour i.dateNow s).2).1,
      (isNewMinute i.dateNow (isNewHour i.dateNow s).2).2) ∧
    (loop i s).prevHour = i.dateNow.hour ∧
    (loop i s).prevMinute = i.dateNow.minute ∧
    (observeClock j (loop i s)).1 = false ∧
    (observeClock j (loop i s)).2.1 = false := by
  have hv : isValidHour i.dateNow = true := by simp [isValidHour, hvalid]
  have hobs : observeClock i s = ((isNewHour i.dateNow s).1,
      (isNewMinute i.dateNow (isNewHour i.dateNow s).2).1,
      (isNewMinute i.dateNow (isNewHour i.dateNow s).2).2) := by
    unfold observeClock
    rw [if_pos hv]
  obtain ⟨h1, h2, h3, h4⟩ := observeClock_valid i s hvalid
  obtain ⟨p1, p2⟩ := loop_prev i s
  rw [h3] at p1
  rw [h4] at p2
  rw [hobs] at h1 h2 h3 h4
  have hvj : j.dateNow.hour ≤ 23 := by rw [hsame]; exact hvalid
  obtain ⟨q1, q2, _, _⟩ := observeClock_valid j (loop i s) hvj
  refine ⟨h1, h2, h3, h4, hobs, p1, p2, ?_, ?_⟩
  · cases hb : (observeClock j (loop i s)).1
    · rfl
    · exact absurd (by rw [hsame, p1]) (q1.mp hb)
  · cases hb : (observeClock j (loop i s)).2.1
    · rfl
    · exact absurd (by rw [hsame, p2]) (q2.mp hb)

/-- Witness of C15: the first cycle at 22:00 after the boot at 21:59 reports a
new hour and a new minute, and a second cycle at 22:00 reports neither. -/
theorem boundary_observed_once_witness :
    (isNewHour (sampleTime 22 0) sampleFresh).1 = true ∧
    (loop (sampleCycle 22 0 100) sampleFresh).prevHour = 22 ∧
    (loop (sampleCycle 22 0 100) sampleFresh).prevMinute = 0 ∧
    (observeClock (sampleCycle 22 0 512) (loop (sampleCycle 22 0 100) sampleFresh)).1 = false ∧
    (observeClock (sampleCycle 22 0 512) (loop (sampleCycle 22 0 100) sampleFresh)).2.1
      = false :=
  have h := boundary_observed_once (sampleCycle 22 0 100) (sampleCycle 22 0 512) sampleFresh
    (by decide) rfl
  ⟨h.1.mpr (by decide), h.2.2.2.2.2.1, h.2.2.2.2.2.2.1, h.2.2.2.2.2.2.2.1, h.2.2.2.2.2.2.2.2⟩

/-! ## C17: capture state and warm-up counter -/

/-- C17. Capture-state / warm-up-counter invariant: in every state reached
from `setup` (run on any power-up state) through any sequence of `loop`
cycles, the capture state is `STARTUP_TESTING_DISCARD_HEDGIE_STATISTICS` if
and only if `startupTestingCount < STARTUP_COUNT_THRESHOLD`, and
`startupTestingCount` never exceeds the threshold 10, so the 16 bit counter
never overflows. -/
theorem gate_invariant_reachable (b : SetupInput) (s0 : State) (is : List LoopInput) :
    ((runLoop (setup b s0) is).statisticsCaptureState
        = STARTUP_TESTING_DISCARD_HEDGIE_STATISTICS
      ↔ (runLoop (setup b s0) is).startupTestingCount < STARTUP_COUNT_THRESHOLD) ∧
    (runLoop (setup b s0) is).startupTestingCount ≤ STARTUP_COUNT_THRESHOLD ∧
    (runLoop (setup b s0) is).startupTestingCount ≤ 10 ∧
    (runLoop (setup b s0) is).startupTestingCount + 1 < 65536 := by
  obtain ⟨h1, h2⟩ := runLoop_gateInv is (setup b s0) (setup_gateInv b s0)
  refine ⟨h1, h2, h2, ?_⟩
  have h3 : (runLoop (setup b s0) is).startupTestingCount ≤ 10 := h2
  omega

end Hedgie
